import Mathlib

/-!
Shallow embedding of the offline-resilient evaluation and caching subsystem of
the aisentinel JavaScript SDK (src/Governor.ts, src/cache.ts, src/utils.ts,
src/types.ts).  Pure data is translated to Lean structures; the mutable fields
of the Governor instance become an explicit state record threaded through each
operation; asynchronous remote calls are driven by an oracle that supplies, for
each attempt, the outcome of the underlying transport.  JS numbers are modelled
as rationals, JS Maps as association lists with Map.set replacement semantics,
and fallible operations return Except.  External collaborators that the spec
declares out of core scope (PII detection, cryptographic hashing, clocks and
random ids, the storage backend internals) enter the model as parameters.
-/

/-- JS expiry values: a finite millisecond timestamp or Number.POSITIVE_INFINITY
(types.ts CacheEntry.expiresAt). -/
inductive Expiry
  | fin (t : ℤ)
  | posInf
  deriving DecidableEq

/-- Association list lookup, modelling Map.get / plain object indexing. -/
def assocFind {α : Type} : List (String × α) → String → Option α
  | [], _ => none
  | (k1, v) :: rest, k => if k1 = k then some v else assocFind rest k

/-- Association list update, modelling Map.set: replace in place when the key is
present, append otherwise. -/
def assocInsert {α : Type} : List (String × α) → String → α → List (String × α)
  | [], k, v => [(k, v)]
  | (k1, v1) :: rest, k, v =>
    if k1 = k then (k1, v) :: rest else (k1, v1) :: assocInsert rest k v

/-- Association list removal, modelling Map.delete. -/
def assocErase {α : Type} : List (String × α) → String → List (String × α)
  | [], _ => []
  | (k1, v1) :: rest, k =>
    if k1 = k then rest else (k1, v1) :: assocErase rest k

/-- Retry configuration (types.ts RetryOptions). -/
structure RetryOptions where
  retries : Nat
  factor : ℚ
  minTimeoutMs : ℚ
  maxTimeoutMs : ℚ
  deriving DecidableEq

/-- Errors crossing the SDK boundary.  GovernorError and its subclasses carry a
code string (types.ts); every other JavaScript exception (a rejected fetch, a
JSON parse failure) is an untyped raw error. -/
inductive SdkError
  | governor (code : String) (message : String)
  | raw (message : String)
  deriving DecidableEq

/-- The code field of a typed error; raw errors have none. -/
def SdkError.code : SdkError → Option String
  | .governor c _ => some c
  | .raw _ => none

/-- Discriminates the NetworkError subclass, which is the unique GovernorError
with code network_error (types.ts). -/
def SdkError.isNetworkError : SdkError → Bool
  | .governor c _ => c = "network_error"
  | .raw _ => false

/-- Outcome of one underlying transport attempt, as seen by utils.ts
httpRequest: the fetch promise may reject with a raw error, the per-attempt
timeout may fire, or an HTTP response arrives whose body either parses to a
value of the expected type or fails to parse. -/
inductive TransportOutcome (α : Type)
  | fetchFailed (message : String)
  | timedOut
  | httpResponse (status : Nat) (ok : Bool) (bodyText : String) (parsed : Option α)

/-- Structured response (types.ts HttpResponse; headers are not consulted by
any modelled operation and are omitted). -/
structure HttpResponse (α : Type) where
  status : Nat
  data : α
  deriving DecidableEq

/-- utils.ts httpRequest (lines 85-161): a timeout becomes a TimeoutError, a
non-ok status becomes a NetworkError, a rejected fetch or an unparseable body
propagates as a raw error, and an ok status with a parsed body is returned. -/
def httpRequest {α : Type} (url : String) (o : TransportOutcome α) :
    Except SdkError (HttpResponse α) :=
  match o with
  | .fetchFailed msg => .error (.raw msg)
  | .timedOut => .error (.governor "timeout_error" ("Request to " ++ url ++ " timed out"))
  | .httpResponse status ok bodyText parsed =>
    if ok = false then
      .error (.governor "network_error" ("HTTP " ++ toString status ++ ": " ++ bodyText))
    else
      match parsed with
      | none => .error (.raw ("Unexpected token in JSON: " ++ bodyText))
      | some d => .ok ⟨status, d⟩

/-- utils.ts exponentialBackoff (lines 53-59): the delay slept before the next
attempt, Math.min(maxTimeoutMs, minTimeoutMs * factor ^ attempt), spelled as
the conditional Math.min computes. -/
def exponentialBackoffDelay (attempt : Nat) (options : RetryOptions) : ℚ :=
  if options.maxTimeoutMs ≤ options.minTimeoutMs * options.factor ^ attempt then
    options.maxTimeoutMs
  else options.minTimeoutMs * options.factor ^ attempt

deriving instance DecidableEq for Except

/-- Observable outcome of one requestWithRetry call: the value returned or
error thrown, the connectivity flag it leaves behind, the number of attempts
made, the backoff delays slept between attempts, and (ghost instrumentation for
the temporal claims) the connectivity flag observed at the start of each
attempt. -/
structure RetryResult (α : Type) where
  result : Except SdkError (HttpResponse α)
  isOffline : Bool
  attemptsMade : Nat
  delays : List ℚ
  offTrace : List Bool
  deriving DecidableEq

/-- Governor.ts requestWithRetry (lines 407-432), as a recursion on the number
of remaining attempts (remaining = maxAttempts - attempt).  On success the
offline flag is cleared and the response returned; on any error the flag is set
when the error is a NetworkError, the attempt counter advances, the error is
rethrown when the budget is exhausted, and otherwise a backoff delay is slept
before the next attempt. -/
def requestWithRetryLoop {α : Type} (retry : RetryOptions)
    (transport : Nat → TransportOutcome α) (url : String) :
    Nat → Nat → Bool → RetryResult α
  | _, 0, off => ⟨.error (.governor "unknown" "Unknown error"), off, 0, [], []⟩
  | attempt, Nat.succ remaining, off =>
    match httpRequest url (transport attempt) with
    | .ok response => ⟨.ok response, false, 1, [], [off]⟩
    | .error e =>
      let off1 := if e.isNetworkError then true else off
      if remaining = 0 then
        ⟨.error e, off1, 1, [], [off]⟩
      else
        let rest := requestWithRetryLoop retry transport url (attempt + 1) remaining off1
        ⟨rest.result, rest.isOffline, rest.attemptsMade + 1,
          exponentialBackoffDelay attempt retry :: rest.delays, off :: rest.offTrace⟩

/-- Governor.ts requestWithRetry entry point: attempt 0 with a budget of
retries + 1 total attempts, starting from the instance connectivity flag. -/
def requestWithRetry {α : Type} (retry : RetryOptions)
    (transport : Nat → TransportOutcome α) (url : String) (off : Bool) : RetryResult α :=
  requestWithRetryLoop retry transport url 0 (retry.retries + 1) off

/-- Evaluation options (types.ts EvaluationPayload.options); each field may be
absent, modelling the optional JS properties. -/
structure EvalOptions where
  offline : Option Bool
  audit : Option Bool
  deriving DecidableEq

/-- types.ts EvaluationPayload.  The input field is a string (subject to PII
scanning) or some other JS value, modelled as none. -/
structure EvaluationPayload where
  policyId : String
  input : Option String
  options : Option EvalOptions
  deriving DecidableEq

/-- types.ts RuleDefinition (fields not consulted by the core are omitted). -/
structure RuleDefinition where
  id : String
  expression : String
  deriving DecidableEq

/-- types.ts PolicyDefinition. -/
structure PolicyDefinition where
  id : String
  version : String
  rules : List RuleDefinition
  deriving DecidableEq

/-- types.ts Rulepack. -/
structure Rulepack where
  id : String
  checksum : String
  updatedAt : String
  policies : List PolicyDefinition
  ttlSeconds : Option ℤ
  deriving DecidableEq

/-- types.ts CacheMetrics. -/
structure CacheMetrics where
  hits : Nat
  misses : Nat
  stale : Nat
  deriving DecidableEq

/-- types.ts CacheEntry. -/
structure CacheEntry (α : Type) where
  value : α
  expiresAt : Expiry
  deriving DecidableEq

/-- types.ts OfflineEvent: the type discriminator together with the payload it
validates (an EvaluationPayload for evaluation events, a policy list for
policy-update events). -/
inductive OfflineEventPayload
  | evaluation (payload : EvaluationPayload)
  | policyUpdate (policies : List PolicyDefinition)
  deriving DecidableEq

/-- types.ts OfflineEvent. -/
structure OfflineEvent where
  payload : OfflineEventPayload
  createdAt : String
  deriving DecidableEq

/-- The audit payload written by Governor.evaluate (Governor.ts lines 159-165),
the only producer of audit records in the core.  The source field name matches
is a reserved word here and is rendered matchList. -/
structure AuditPayload where
  policyId : String
  decision : String
  score : Option ℚ
  offline : Bool
  matchList : List String
  deriving DecidableEq

/-- types.ts AuditRecord. -/
structure AuditRecord where
  id : String
  timestamp : String
  action : String
  payload : AuditPayload
  deriving DecidableEq

/-- Result metadata: the offline flag, queued event id and piiMatches written
by the offline branch, the cacheMetrics snapshot written by the online branch,
over whatever metadata the remote response carried. -/
structure EvalMetadata where
  offline : Option Bool
  queuedEventId : Option String
  piiMatches : List String
  cacheMetrics : Option CacheMetrics
  deriving DecidableEq

/-- types.ts EvaluationResult. -/
structure EvaluationResult where
  policyId : String
  decision : String
  score : Option ℚ
  evaluatedAt : String
  metadata : EvalMetadata
  deriving DecidableEq

/-- types.ts GovernorConfig after resolution (config.ts): the immutable
snapshot consulted by the Governor.  The storage key namespace only shapes
storage key strings and is not consulted by any modelled claim. -/
structure GovernorConfig where
  apiKey : Option String
  endpoint : String
  timeoutMs : ℤ
  retry : RetryOptions
  cacheTTL : ℤ
  offline : Bool
  enableAuditLog : Bool
  deriving DecidableEq

/-- External collaborators and ambient effects supplied to each operation: the
PII detector (pii.ts detectPII, pure), the hash function behind cache keys
(utils.ts hashString, an external crypto primitive), the current clock reading
Date.now(), the ISO rendering of the current instant, and the nonce used by
utils.ts randomId.  Within one modelled operation the clock is constant. -/
structure Ctx where
  detectPII : String → List String
  hashString : String → String
  nowMs : ℤ
  isoNow : String
  nonce : String

/-- Mutable state of a Governor instance (Governor.ts lines 56-63) together
with the storage slots the instance persists into: the in-process fields
isOffline, offlineQueue, auditLog, the rulepack CacheManager memory tier,
metrics and durable tier, the rulepackIndex map, and the persisted copies of
queue, audit log and index written through the storage driver. -/
structure GovState where
  isOffline : Bool
  offlineQueue : List OfflineEvent
  auditLog : List AuditRecord
  rulepackMemory : List (String × CacheEntry Rulepack)
  rulepackMetrics : CacheMetrics
  rulepackStorage : List (String × Rulepack)
  rulepackIndex : List (String × String)
  storedQueue : List OfflineEvent
  storedAuditLog : List AuditRecord
  storedIndex : List (String × String)
  deriving DecidableEq

/-- Configuration of one CacheManager (cache.ts constructor): its namespace and
default TTL. -/
structure CacheConfig where
  nspace : String
  ttlMs : ℤ
  deriving DecidableEq

/-- In-process state of one CacheManager: the memory tier and the metrics. -/
structure CacheState (α : Type) where
  memory : List (String × CacheEntry α)
  metrics : CacheMetrics
  deriving DecidableEq

/-- cache.ts isExpired (lines 69-71): expired when finite and at or before the
current clock reading. -/
def cacheIsExpired {α : Type} (entry : CacheEntry α) (now : ℤ) : Bool :=
  match entry.expiresAt with
  | .posInf => false
  | .fin t => decide (t ≤ now)

/-- cache.ts get, durable fall-through (lines 28-37): a miss in both tiers
counts a miss; a durable hit counts a hit and promotes the value into the
memory tier with a freshly computed expiry of now plus the configured TTL. -/
def cacheGetPersisted {α : Type} (c : CacheConfig) (storage : List (String × α))
    (st : CacheState α) (now : ℤ) (key : String) : Option α × CacheState α :=
  match assocFind storage (c.nspace ++ ":" ++ key) with
  | none =>
    (none, { st with metrics := { st.metrics with misses := st.metrics.misses + 1 } })
  | some persisted =>
    let entry : CacheEntry α := ⟨persisted, .fin (now + c.ttlMs)⟩
    (some entry.value,
      { st with metrics := { st.metrics with hits := st.metrics.hits + 1 },
                memory := assocInsert st.memory key entry })

/-- cache.ts get (lines 17-38): a live memory entry is a hit; an expired memory
entry counts stale, is deleted, and lookup falls through to the durable tier,
as does a memory miss. -/
def cacheGet {α : Type} (c : CacheConfig) (storage : List (String × α))
    (st : CacheState α) (now : ℤ) (key : String) : Option α × CacheState α :=
  match assocFind st.memory key with
  | some record =>
    if cacheIsExpired record now = false then
      (some record.value,
        { st with metrics := { st.metrics with hits := st.metrics.hits + 1 } })
    else
      cacheGetPersisted c storage
        { st with metrics := { st.metrics with stale := st.metrics.stale + 1 },
                  memory := assocErase st.memory key } now key
  | none => cacheGetPersisted c storage st now key

/-- cache.ts set (lines 40-47): write the memory tier with expiry now plus the
given TTL (default the configured TTL) and write the durable tier. -/
def cacheSet {α : Type} (c : CacheConfig) (storage : List (String × α))
    (st : CacheState α) (now : ℤ) (key : String) (value : α) (ttlMs : Option ℤ) :
    CacheState α × List (String × α) :=
  let entry : CacheEntry α := ⟨value, .fin (now + ttlMs.getD c.ttlMs)⟩
  ({ st with memory := assocInsert st.memory key entry },
    assocInsert storage (c.nspace ++ ":" ++ key) value)

/-- cache.ts createRulepackCacheKey (lines 74-75): hash the policyId and the
checksum joined by a colon. -/
def createRulepackCacheKey (hash : String → String) (policyId checksum : String) : String :=
  hash (policyId ++ ":" ++ checksum)

/-- The rulepack CacheManager configuration built in the Governor constructor
(Governor.ts lines 68-72): namespace rulepack, TTL the configured cacheTTL. -/
def rulepackCacheConfig (cfg : GovernorConfig) : CacheConfig :=
  ⟨"rulepack", cfg.cacheTTL⟩

/-- TTL computation of Governor.cacheRulepack (lines 363-364): the rulepack's
own ttlSeconds, else the configured cacheTTL in whole seconds, at least 1;
scaled to milliseconds. -/
def rulepackTtlMs (cfg : GovernorConfig) (rulepack : Rulepack) : ℤ :=
  let ttlSeconds : ℤ :=
    match rulepack.ttlSeconds with
    | some t => t
    | none => max 1 (Int.fdiv cfg.cacheTTL 1000)
  ttlSeconds * 1000

/-- Governor.cacheRulepack (lines 362-369): derive the content-addressed cache
key from the policyId and checksum, store the rulepack in the cache under that
key with the rulepack TTL, update the rulepackIndex to point the policyId at
the new key, and persist the index. -/
def cacheRulepack (cfg : GovernorConfig) (hash : String → String) (now : ℤ)
    (g : GovState) (policyId : String) (rulepack : Rulepack) : GovState :=
  let cacheKey := createRulepackCacheKey hash policyId rulepack.checksum
  let written := cacheSet (rulepackCacheConfig cfg) g.rulepackStorage
    ⟨g.rulepackMemory, g.rulepackMetrics⟩ now cacheKey rulepack (some (rulepackTtlMs cfg rulepack))
  let index1 := assocInsert g.rulepackIndex policyId cacheKey
  { g with rulepackMemory := written.1.memory,
           rulepackMetrics := written.1.metrics,
           rulepackStorage := written.2,
           rulepackIndex := index1,
           storedIndex := index1 }

/-- Governor.getCachedRulepack (lines 371-377): look the policyId up in the
rulepackIndex and, when bound, read the cache under the bound key. -/
def getCachedRulepack (cfg : GovernorConfig) (now : ℤ) (g : GovState)
    (policyId : String) : Option Rulepack × GovState :=
  match assocFind g.rulepackIndex policyId with
  | none => (none, g)
  | some cacheKey =>
    let read := cacheGet (rulepackCacheConfig cfg) g.rulepackStorage
      ⟨g.rulepackMemory, g.rulepackMetrics⟩ now cacheKey
    (read.1, { g with rulepackMemory := read.2.memory, rulepackMetrics := read.2.metrics })

/-- Governor.loadRulepack (lines 172-228).  The transport oracle yields, per
attempt, the outcome of the remote rulepack fetch; the byte decoding and
deflate fall-back of lines 199-224 are folded into the oracle's parsed value,
since the claims only depend on whether a rulepack was obtained.  An empty
policyId models the falsy guard of line 173. -/
def loadRulepack (cfg : GovernorConfig) (ctx : Ctx)
    (rpTransport : Nat → TransportOutcome Rulepack) (g : GovState)
    (policyId : String) (forceRefresh : Bool) :
    Except SdkError (Option Rulepack) × GovState :=
  if policyId = "" then
    (.error (.governor "policy_error" "policyId is required to load a rulepack"), g)
  else
    let cachedStep : Option Rulepack × GovState :=
      if forceRefresh = false then getCachedRulepack cfg ctx.nowMs g policyId else (none, g)
    match cachedStep with
    | (some cached, g1) => (.ok (some cached), g1)
    | (none, g1) =>
      if g1.isOffline then (.ok none, g1)
      else
        let rr := requestWithRetry cfg.retry rpTransport
          (cfg.endpoint ++ "/policies/" ++ policyId ++ "/rulepack") g1.isOffline
        let g2 := { g1 with isOffline := rr.isOffline }
        match rr.result with
        | .error e => (.error e, g2)
        | .ok response =>
          let rulepack := response.data
          (.ok (some rulepack), cacheRulepack cfg ctx.hashString ctx.nowMs g2 policyId rulepack)

/-- Governor.ensureRulepackCached (lines 379-384): load with forceRefresh when
no cached rulepack resolves. -/
def ensureRulepackCached (cfg : GovernorConfig) (ctx : Ctx)
    (rpTransport : Nat → TransportOutcome Rulepack) (g : GovState) (policyId : String) :
    Except SdkError Unit × GovState :=
  match getCachedRulepack cfg ctx.nowMs g policyId with
  | (some _, g1) => (.ok (), g1)
  | (none, g1) =>
    match loadRulepack cfg ctx rpTransport g1 policyId true with
    | (.error e, g2) => (.error e, g2)
    | (.ok _, g2) => (.ok (), g2)

/-- Governor.persistOfflineQueue (lines 391-393). -/
def persistOfflineQueue (g : GovState) : GovState :=
  { g with storedQueue := g.offlineQueue }

/-- Governor.enqueueOfflineEvent (lines 386-389): append and persist. -/
def enqueueOfflineEvent (g : GovState) (event : OfflineEvent) : GovState :=
  persistOfflineQueue { g with offlineQueue := g.offlineQueue ++ [event] }

/-- The bounded append applied to the in-memory audit log by
Governor.appendAuditRecord (lines 337-340): push, then splice away all but the
most recent 500 records. -/
def auditLogAfterAppend (log : List AuditRecord) (record : AuditRecord) : List AuditRecord :=
  let log1 := log ++ [record]
  if log1.length > 500 then log1.drop (log1.length - 500) else log1

/-- Governor.appendAuditRecord (lines 333-342): a no-op when audit logging is
disabled; otherwise the bounded append, persisted. -/
def appendAuditRecord (cfg : GovernorConfig) (g : GovState) (record : AuditRecord) : GovState :=
  if cfg.enableAuditLog = false then g
  else
    let log1 := auditLogAfterAppend g.auditLog record
    { g with auditLog := log1, storedAuditLog := log1 }

/-- Truthiness of payload.options?.offline (Governor.ts line 116). -/
def offlineRequested (payload : EvaluationPayload) : Bool :=
  match payload.options with
  | some o => decide (o.offline = some true)
  | none => false

/-- The transport oracles one evaluate call may consume: one stream for the
rulepack fetch issued by ensureRulepackCached and one for the evaluate POST. -/
structure EvalTransports where
  rulepackFetch : Nat → TransportOutcome Rulepack
  evalPost : Nat → TransportOutcome EvaluationResult

/-- Governor.evaluate (lines 109-170).  A missing policyId throws a
PolicyError.  When the instance is offline or the caller requested offline
handling, the full payload is queued as an evaluation offline event and a
synthetic review result is returned.  Otherwise the rulepack is ensured
cached, the evaluate endpoint is called through the retry controller, the
response metadata is merged with the PII matches and a cache metrics snapshot,
and, when audit logging is enabled, an audit record is appended. -/
def evaluate (cfg : GovernorConfig) (ctx : Ctx) (tr : EvalTransports)
    (g : GovState) (payload : EvaluationPayload) :
    Except SdkError EvaluationResult × GovState :=
  if payload.policyId = "" then
    (.error (.governor "policy_error" "policyId is required for evaluation"), g)
  else
    let piiMatches := match payload.input with
      | some text => ctx.detectPII text
      | none => []
    if g.isOffline || offlineRequested payload then
      let event : OfflineEvent := ⟨.evaluation payload, ctx.isoNow⟩
      (.ok { policyId := payload.policyId, decision := "review", score := none,
             evaluatedAt := ctx.isoNow,
             metadata := { offline := some true, queuedEventId := some event.createdAt,
                           piiMatches := piiMatches, cacheMetrics := none } },
        enqueueOfflineEvent g event)
    else
      match ensureRulepackCached cfg ctx tr.rulepackFetch g payload.policyId with
      | (.error e, g2) => (.error e, g2)
      | (.ok _, g2) =>
        let rr := requestWithRetry cfg.retry tr.evalPost
          (cfg.endpoint ++ "/policies/" ++ payload.policyId ++ "/evaluate") g2.isOffline
        let g3 := { g2 with isOffline := rr.isOffline }
        match rr.result with
        | .error e => (.error e, g3)
        | .ok response =>
          let result : EvaluationResult :=
            { response.data with
              metadata := { response.data.metadata with
                            piiMatches := piiMatches,
                            cacheMetrics := some g3.rulepackMetrics } }
          let g4 :=
            if cfg.enableAuditLog then
              appendAuditRecord cfg g3
                { id := "audit_" ++ ctx.nonce, timestamp := ctx.isoNow, action := "evaluate",
                  payload := { policyId := payload.policyId, decision := result.decision,
                               score := result.score, offline := false,
                               matchList := piiMatches } }
            else g3
          (.ok result, g4)

/-- Governor.updatePolicies (lines 230-246): queue a policy-update offline
event while offline, otherwise PUT the policy list through the retry
controller (the response body is discarded). -/
def updatePolicies (cfg : GovernorConfig) (ctx : Ctx)
    (puTransport : Nat → TransportOutcome Unit) (g : GovState)
    (policies : List PolicyDefinition) : Except SdkError Unit × GovState :=
  if g.isOffline then
    (.ok (), enqueueOfflineEvent g ⟨.policyUpdate policies, ctx.isoNow⟩)
  else
    let rr := requestWithRetry cfg.retry puTransport (cfg.endpoint ++ "/policies") g.isOffline
    let g1 := { g with isOffline := rr.isOffline }
    match rr.result with
    | .error e => (.error e, g1)
    | .ok _ => (.ok (), g1)

/-- The replay payload built by Governor.flushOfflineQueue for an evaluation
event (lines 311-315): spread the original payload and, when it carried an
options object, override offline to false; a payload without options is
replayed without one. -/
def replayEvaluationPayload (originalPayload : EvaluationPayload) : EvaluationPayload :=
  { originalPayload with
    options := match originalPayload.options with
      | some o => some { o with offline := some false }
      | none => none }

/-- The transport oracles available to one drain iteration. -/
structure FlushOracles where
  evalTr : EvalTransports
  updateTr : Nat → TransportOutcome Unit

/-- One delivery attempt of Governor.flushOfflineQueue (lines 308-319):
re-invoke evaluate on the replay payload for an evaluation event, resubmit the
policy list verbatim for a policy-update event. -/
def deliverOfflineEvent (cfg : GovernorConfig) (ctx : Ctx) (orc : FlushOracles)
    (g : GovState) (event : OfflineEvent) : Except SdkError Unit × GovState :=
  match event.payload with
  | .evaluation originalPayload =>
    match evaluate cfg ctx orc.evalTr g (replayEvaluationPayload originalPayload) with
    | (.error e, g1) => (.error e, g1)
    | (.ok _, g1) => (.ok (), g1)
  | .policyUpdate policies => updatePolicies cfg ctx orc.updateTr g policies

/-- The while loop of Governor.flushOfflineQueue (lines 302-327), with an
explicit fuel bound on the number of iterations, an iteration counter indexing
the per-iteration oracles, and (ghost instrumentation) the list of events
delivered so far.  Each iteration shifts the head event, attempts delivery,
continues on success and, on failure, unshifts the event back onto the head and
returns the error; when the queue empties it is persisted.  none marks fuel
exhaustion before the loop finished. -/
def flushLoop (cfg : GovernorConfig) (ctx : Ctx) (oracles : Nat → FlushOracles) :
    Nat → Nat → List OfflineEvent → GovState →
    Option ((Except SdkError Unit × GovState) × List OfflineEvent)
  | _, 0, delivered, g =>
    match g.offlineQueue with
    | [] => some ((.ok (), persistOfflineQueue g), delivered)
    | _ :: _ => none
  | i, Nat.succ fuel, delivered, g =>
    match g.offlineQueue with
    | [] => some ((.ok (), persistOfflineQueue g), delivered)
    | event :: rest =>
      match deliverOfflineEvent cfg ctx (oracles i) { g with offlineQueue := rest } event with
      | (.ok _, g1) => flushLoop cfg ctx oracles (i + 1) fuel (delivered ++ [event]) g1
      | (.error e, g1) =>
        some ((.error e, { g1 with offlineQueue := event :: g1.offlineQueue }), delivered)

/-- Governor.flushOfflineQueue (lines 297-327): a no-op while offline,
otherwise the drain loop, given fuel equal to the initial queue length (the
theorems show this fuel is never exhausted). -/
def flushOfflineQueue (cfg : GovernorConfig) (ctx : Ctx) (oracles : Nat → FlushOracles)
    (g : GovState) : Option ((Except SdkError Unit × GovState) × List OfflineEvent) :=
  if g.isOffline then some ((.ok (), g), [])
  else flushLoop cfg ctx oracles 0 g.offlineQueue.length [] g

/-- Tests whether one transport attempt fails with a NetworkError once put
through httpRequest. -/
def transportNetworkError {α : Type} (url : String) (o : TransportOutcome α) : Bool :=
  match httpRequest url o with
  | .error e => e.isNetworkError
  | .ok _ => false

/-- A transport attempt is well typed when httpRequest turns it into either a
structured response or a GovernorError: the fetch promise does not reject and
an ok body always parses.  Raw transport behaviour outside this predicate is
exactly what escapes the typed error hierarchy. -/
def TransportOutcome.wellTyped {α : Type} : TransportOutcome α → Bool
  | .fetchFailed _ => false
  | .timedOut => true
  | .httpResponse _ ok _ parsed => !ok || parsed.isSome

/-- The default retry policy of config.ts (DEFAULT_RETRY). -/
def retryDefaults : RetryOptions := ⟨3, 2, 250, 4000⟩

/-- A transport whose every attempt returns an ok response with an unparseable
body: httpRequest throws a raw JSON error, which is neither a network_error nor
a timeout_error. -/
def cexTransport : Nat → TransportOutcome Unit :=
  fun _ => .httpResponse 200 true "nonsense" none

/-- Sample ambient context for concrete runs: no PII hits, the identity hash,
clock zero. -/
def ctxSample : Ctx :=
  ⟨fun _ => [], fun s => s, 0, "2026-01-01T00:00:00Z", "n0"⟩

/-- Sample rulepack, checksum c1. -/
def rpSample : Rulepack := ⟨"p", "c1", "2026-01-01", [], some 60⟩

/-- Sample rulepack for the same policy, checksum c2. -/
def rpSample2 : Rulepack := ⟨"p", "c2", "2026-01-02", [], some 60⟩

/-- Sample configuration: retries 0 (so concrete runs make one attempt), audit
logging enabled, initially connected. -/
def cfgSample : GovernorConfig :=
  ⟨none, "https://api.example", 10000, ⟨0, 2, 250, 4000⟩, 300000, false, true⟩

/-- Sample remote evaluation response. -/
def evalResultSample : EvaluationResult :=
  ⟨"p", "allow", none, "2026-01-01", ⟨none, none, [], none⟩⟩

/-- Sample audit record. -/
def auditRecordSample : AuditRecord :=
  ⟨"a1", "t1", "evaluate", ⟨"p", "allow", none, false, []⟩⟩

/-- A fresh Governor state: connected, empty queue, log, cache and index. -/
def gEmpty : GovState := ⟨false, [], [], [], ⟨0, 0, 0⟩, [], [], [], [], []⟩

/-- A state whose rulepack cache already resolves policy p, so online evaluate
runs need no rulepack fetch. -/
def gCachedSample : GovState :=
  { gEmpty with rulepackMemory := [("k", ⟨rpSample, .fin 1000⟩)],
                rulepackIndex := [("p", "k")] }

/-- Transports where every remote call succeeds. -/
def trOkSample : EvalTransports :=
  ⟨fun _ => .httpResponse 200 true "" (some rpSample),
   fun _ => .httpResponse 200 true "" (some evalResultSample)⟩

/-- Transports where the evaluate POST's fetch promise rejects with a raw
connection error. -/
def trFetchFailSample : EvalTransports :=
  ⟨fun _ => .httpResponse 200 true "" (some rpSample),
   fun _ => .fetchFailed "connection refused"⟩

/-- Transports where the evaluate POST always receives an HTTP 500. -/
def trNetFailSample : EvalTransports :=
  ⟨fun _ => .httpResponse 200 true "" (some rpSample),
   fun _ => .httpResponse 500 false "boom" none⟩

/-- Payload that explicitly requests offline handling. -/
def pOfflineSample : EvaluationPayload := ⟨"p", some "hello", some ⟨some true, none⟩⟩

/-- Plain payload with no options. -/
def pPlainSample : EvaluationPayload := ⟨"p", none, none⟩

/-- Drain-time oracles where every delivery succeeds. -/
def oraclesSample : Nat → FlushOracles :=
  fun _ => ⟨trOkSample, fun _ => .httpResponse 200 true "" (some ())⟩

/-- A connected state whose queue holds one evaluation event carrying an
explicit offline request, on top of the cached-rulepack state. -/
def gQueuedSample : GovState :=
  { gCachedSample with offlineQueue := [⟨.evaluation pOfflineSample, "t0"⟩] }

/-- The queue and audit components of the state, bundled so frame lemmas can
assert in one equation that an operation leaves all of them untouched. -/
def queueAuditFrame (g : GovState) :
    List OfflineEvent × List OfflineEvent × List AuditRecord × List AuditRecord :=
  (g.offlineQueue, g.storedQueue, g.auditLog, g.storedAuditLog)

theorem assocFind_insert_self {α : Type} (l : List (String × α)) (k : String) (v : α) :
    assocFind (assocInsert l k v) k = some v := by
  induction l with
  | nil => simp [assocInsert, assocFind]
  | cons hd tl ih =>
    obtain ⟨k1, v1⟩ := hd
    by_cases h : k1 = k
    · simp [assocInsert, h, assocFind]
    · simp [assocInsert, h, assocFind, ih]

theorem assocFind_insert_ne {α : Type} (l : List (String × α)) (k k1 : String) (v : α)
    (h : k1 ≠ k) : assocFind (assocInsert l k v) k1 = assocFind l k1 := by
  induction l with
  | nil =>
    simp only [assocInsert, assocFind]
    rw [if_neg (fun hh => h hh.symm)]
  | cons hd tl ih =>
    obtain ⟨k2, v2⟩ := hd
    by_cases h2 : k2 = k
    · subst h2
      simp only [assocInsert, if_pos rfl, assocFind]
      rw [if_neg (fun hh => h hh.symm), if_neg (fun hh => h hh.symm)]
    · simp only [assocInsert, if_neg h2, assocFind]
      by_cases h3 : k2 = k1
      · simp [h3]
      · simp [h3, ih]

theorem string_append_cancel (p s1 s2 : String) (h : p ++ s1 = p ++ s2) : s1 = s2 := by
  have h2 : p.data ++ s1.data = p.data ++ s2.data := by
    rw [← String.data_append, ← String.data_append, h]
  have h3 : s1.data = s2.data := List.append_cancel_left h2
  cases s1
  cases s2
  exact congrArg String.mk h3

theorem requestWithRetryLoop_budget {α : Type} (retry : RetryOptions)
    (transport : Nat → TransportOutcome α) (url : String) :
    ∀ (remaining attempt : Nat) (off : Bool), 1 ≤ remaining →
      1 ≤ (requestWithRetryLoop retry transport url attempt remaining off).attemptsMade ∧
      (requestWithRetryLoop retry transport url attempt remaining off).attemptsMade ≤ remaining ∧
      (requestWithRetryLoop retry transport url attempt remaining off).delays =
        (List.range ((requestWithRetryLoop retry transport url attempt remaining off).attemptsMade - 1)).map
          (fun n => exponentialBackoffDelay (attempt + n) retry) := by
  intro remaining
  induction remaining with
  | zero => intro attempt off h; omega
  | succ r ih =>
    intro attempt off _
    cases hreq : httpRequest url (transport attempt) with
    | ok response =>
      simp [requestWithRetryLoop, hreq]
    | error e =>
      by_cases hr : r = 0
      · subst hr
        simp [requestWithRetryLoop, hreq]
      · have h1 : 1 ≤ r := Nat.one_le_iff_ne_zero.mpr hr
        obtain ⟨ih1, ih2, ih3⟩ := ih (attempt + 1) (if e.isNetworkError = true then true else off) h1
        have hm : (requestWithRetryLoop retry transport url (attempt + 1) r
              (if e.isNetworkError = true then true else off)).attemptsMade =
            ((requestWithRetryLoop retry transport url (attempt + 1) r
              (if e.isNetworkError = true then true else off)).attemptsMade - 1) + 1 := by
          omega
        simp only [requestWithRetryLoop, hreq, if_neg hr]
        refine ⟨by omega, by omega, ?_⟩
        rw [ih3, hm]
        simp only [Nat.add_sub_cancel]
        rw [List.range_succ_eq_map, List.map_cons, List.map_map]
        have hfe : (fun n => exponentialBackoffDelay (attempt + 1 + n) retry) =
            (fun n => exponentialBackoffDelay (attempt + n) retry) ∘ Nat.succ := by
          funext n
          simp only [Function.comp]
          congr 1
          omega
        rw [hm] at ih3
        simp only [Nat.add_zero, hfe]

/-- C5: for every remote call the retry controller makes at most
retry.retries + 1 total attempts, and the delay slept before the n-th retry
(0-indexed from the first retry) is min(maxTimeoutMs, minTimeoutMs * factor^n),
with no jitter: the delay sequence is exactly the image of that closed formula
over the indices of the retries performed. -/
theorem c5_retry_budget_and_backoff {α : Type} (retry : RetryOptions)
    (transport : Nat → TransportOutcome α) (url : String) (off : Bool) :
    (requestWithRetry retry transport url off).attemptsMade ≤ retry.retries + 1 ∧
    (requestWithRetry retry transport url off).delays =
      (List.range ((requestWithRetry retry transport url off).attemptsMade - 1)).map
        (fun n => min retry.maxTimeoutMs (retry.minTimeoutMs * retry.factor ^ n)) := by
  obtain ⟨h1, h2, h3⟩ :=
    requestWithRetryLoop_budget retry transport url (retry.retries + 1) 0 off (by omega)
  refine ⟨h2, ?_⟩
  simp only [requestWithRetry]
  rw [h3]
  simp [exponentialBackoffDelay, min_def]

theorem requestWithRetryLoop_all_fail {α : Type} (retry : RetryOptions)
    (transport : Nat → TransportOutcome α) (url : String) :
    ∀ (remaining attempt : Nat) (off : Bool), 1 ≤ remaining →
      (∀ k, k < remaining → ∃ e, httpRequest url (transport (attempt + k)) = .error e) →
      (requestWithRetryLoop retry transport url attempt remaining off).attemptsMade = remaining ∧
      ∃ e, httpRequest url (transport (attempt + (remaining - 1))) = .error e ∧
        (requestWithRetryLoop retry transport url attempt remaining off).result = .error e := by
  intro remaining
  induction remaining with
  | zero => intro attempt off h; omega
  | succ r ih =>
    intro attempt off _ hall
    obtain ⟨e0, he0⟩ := hall 0 (by omega)
    rw [Nat.add_zero] at he0
    by_cases hr : r = 0
    · subst hr
      simp only [requestWithRetryLoop, he0, if_pos rfl]
      exact ⟨rfl, e0, by simpa using he0, rfl⟩
    · have h1 : 1 ≤ r := Nat.one_le_iff_ne_zero.mpr hr
      have hall1 : ∀ k, k < r →
          ∃ e, httpRequest url (transport (attempt + 1 + k)) = .error e := by
        intro k hk
        have := hall (k + 1) (by omega)
        have harg : attempt + (k + 1) = attempt + 1 + k := by omega
        rwa [harg] at this
      obtain ⟨ihA, e1, he1, ihR⟩ :=
        ih (attempt + 1) (if e0.isNetworkError = true then true else off) h1 hall1
      simp only [requestWithRetryLoop, he0, if_neg hr]
      refine ⟨by omega, e1, ?_, ihR⟩
      have harg2 : attempt + (r + 1 - 1) = attempt + 1 + (r - 1) := by omega
      rwa [harg2]

/-- C4 counterexample: with the default retry policy, a transport whose every
attempt throws a raw JSON parse error (an error that is neither of kind
network_error nor of kind timeout_error) is retried through all four attempts
with three backoff delays slept in between, instead of propagating on its
first occurrence without consuming retry attempts or backoff. -/
theorem c4_counterexample :
    (requestWithRetry retryDefaults cexTransport "https://api.example/policies" false).attemptsMade = 4 ∧
    (requestWithRetry retryDefaults cexTransport "https://api.example/policies" false).delays.length = 3 ∧
    (requestWithRetry retryDefaults cexTransport "https://api.example/policies" false).result =
      .error (.raw "Unexpected token in JSON: nonsense") ∧
    SdkError.code (.raw "Unexpected token in JSON: nonsense") ≠ some "network_error" ∧
    SdkError.code (.raw "Unexpected token in JSON: nonsense") ≠ some "timeout_error" := by
  decide

/-- C4 amended: the retry controller does not discriminate by error kind.
Whatever errors the attempts throw (typed or raw), every failed attempt
consumes one unit of the retry budget and, while budget remains, a backoff
delay; when every attempt fails the full budget of retries + 1 attempts is
consumed and the error of the final attempt propagates.  Only the offline-mode
transition distinguishes kinds. -/
theorem c4_all_errors_retried {α : Type} (retry : RetryOptions)
    (transport : Nat → TransportOutcome α) (url : String) (off : Bool)
    (h : ∀ k, k ≤ retry.retries → ∃ e, httpRequest url (transport k) = .error e) :
    (requestWithRetry retry transport url off).attemptsMade = retry.retries + 1 ∧
    ∃ e, httpRequest url (transport retry.retries) = .error e ∧
      (requestWithRetry retry transport url off).result = .error e := by
  obtain ⟨hA, e, he, hR⟩ :=
    requestWithRetryLoop_all_fail retry transport url (retry.retries + 1) 0 off (by omega)
      (fun k hk => by simpa using h k (by omega))
  refine ⟨hA, e, ?_, hR⟩
  simpa using he

theorem c4_all_errors_retried_witness :
    (requestWithRetry retryDefaults cexTransport "u" false).attemptsMade =
      retryDefaults.retries + 1 ∧
    ∃ e, httpRequest "u" (cexTransport retryDefaults.retries) = .error e ∧
      (requestWithRetry retryDefaults cexTransport "u" false).result = .error e :=
  c4_all_errors_retried retryDefaults cexTransport "u" false
    (fun _ _ => ⟨.raw ("Unexpected token in JSON: " ++ "nonsense"), rfl⟩)

theorem requestWithRetryLoop_ok_offline {α : Type} (retry : RetryOptions)
    (transport : Nat → TransportOutcome α) (url : String) :
    ∀ (remaining attempt : Nat) (off : Bool) (response : HttpResponse α),
      (requestWithRetryLoop retry transport url attempt remaining off).result = .ok response →
      (requestWithRetryLoop retry transport url attempt remaining off).isOffline = false := by
  intro remaining
  induction remaining with
  | zero => intro attempt off response h; simp [requestWithRetryLoop] at h
  | succ r ih =>
    intro attempt off response h
    cases hreq : httpRequest url (transport attempt) with
    | ok resp2 => simp [requestWithRetryLoop, hreq]
    | error e =>
      by_cases hr : r = 0
      · subst hr
        simp [requestWithRetryLoop, hreq] at h
      · simp only [requestWithRetryLoop, hreq, if_neg hr] at h ⊢
        exact ih (attempt + 1) _ response h

theorem requestWithRetryLoop_error_network_offline {α : Type} (retry : RetryOptions)
    (transport : Nat → TransportOutcome α) (url : String) :
    ∀ (remaining attempt : Nat) (off : Bool) (e : SdkError),
      (requestWithRetryLoop retry transport url attempt remaining off).result = .error e →
      e.isNetworkError = true →
      (requestWithRetryLoop retry transport url attempt remaining off).isOffline = true := by
  intro remaining
  induction remaining with
  | zero =>
    intro attempt off e h hnet
    simp only [requestWithRetryLoop] at h
    rw [Except.error.injEq] at h
    rw [← h] at hnet
    simp [SdkError.isNetworkError] at hnet
  | succ r ih =>
    intro attempt off e h hnet
    cases hreq : httpRequest url (transport attempt) with
    | ok resp2 => simp [requestWithRetryLoop, hreq] at h
    | error e0 =>
      by_cases hr : r = 0
      · subst hr
        simp [requestWithRetryLoop, hreq] at h ⊢
        subst h
        simp [hnet]
      · simp only [requestWithRetryLoop, hreq, if_neg hr] at h ⊢
        exact ih (attempt + 1) _ e h hnet

theorem requestWithRetryLoop_offTrace_head {α : Type} (retry : RetryOptions)
    (transport : Nat → TransportOutcome α) (url : String)
    (remaining attempt : Nat) (off : Bool) (h : 1 ≤ remaining) :
    (requestWithRetryLoop retry transport url attempt remaining off).offTrace.getD 0 false = off := by
  cases remaining with
  | zero => omega
  | succ r =>
    cases hreq : httpRequest url (transport attempt) with
    | ok resp => simp [requestWithRetryLoop, hreq]
    | error e =>
      by_cases hr : r = 0
      · simp [requestWithRetryLoop, hreq, hr]
      · simp [requestWithRetryLoop, hreq, if_neg hr]

theorem requestWithRetryLoop_offTrace_net {α : Type} (retry : RetryOptions)
    (transport : Nat → TransportOutcome α) (url : String) :
    ∀ (remaining attempt : Nat) (off : Bool) (k : Nat),
      transportNetworkError url (transport (attempt + k)) = true →
      k + 1 < (requestWithRetryLoop retry transport url attempt remaining off).offTrace.length →
      (requestWithRetryLoop retry transport url attempt remaining off).offTrace.getD (k + 1) false =
        true := by
  intro remaining
  induction remaining with
  | zero =>
    intro attempt off k hnet hlen
    simp [requestWithRetryLoop] at hlen
  | succ r ih =>
    intro attempt off k hnet hlen
    cases hreq : httpRequest url (transport attempt) with
    | ok resp =>
      simp [requestWithRetryLoop, hreq] at hlen
    | error e =>
      by_cases hr : r = 0
      · subst hr
        simp [requestWithRetryLoop, hreq] at hlen
      · have h1 : 1 ≤ r := Nat.one_le_iff_ne_zero.mpr hr
        simp only [requestWithRetryLoop, hreq, if_neg hr] at hlen ⊢
        cases k with
        | zero =>
          have hnet0 : e.isNetworkError = true := by
            rw [Nat.add_zero] at hnet
            simpa [transportNetworkError, hreq] using hnet
          simp only [List.getD_cons_succ]
          rw [requestWithRetryLoop_offTrace_head retry transport url r (attempt + 1) _ h1]
          simp [hnet0]
        | succ j =>
          simp only [List.getD_cons_succ]
          have harg : attempt + (j + 1) = attempt + 1 + j := by omega
          rw [harg] at hnet
          refine ih (attempt + 1) _ j hnet ?_
          simp only [List.length_cons] at hlen
          omega

theorem cacheRulepack_frame (cfg : GovernorConfig) (hash : String → String) (now : ℤ)
    (g : GovState) (policyId : String) (rulepack : Rulepack) :
    queueAuditFrame (cacheRulepack cfg hash now g policyId rulepack) = queueAuditFrame g ∧
    (cacheRulepack cfg hash now g policyId rulepack).isOffline = g.isOffline := by
  exact ⟨rfl, rfl⟩

theorem getCachedRulepack_frame (cfg : GovernorConfig) (now : ℤ) (g : GovState)
    (policyId : String) :
    queueAuditFrame (getCachedRulepack cfg now g policyId).2 = queueAuditFrame g ∧
    (getCachedRulepack cfg now g policyId).2.isOffline = g.isOffline := by
  unfold getCachedRulepack
  cases assocFind g.rulepackIndex policyId <;> exact ⟨rfl, rfl⟩

theorem loadRulepack_frame (cfg : GovernorConfig) (ctx : Ctx)
    (rpTransport : Nat → TransportOutcome Rulepack) (g : GovState)
    (policyId : String) (forceRefresh : Bool) :
    queueAuditFrame (loadRulepack cfg ctx rpTransport g policyId forceRefresh).2 =
      queueAuditFrame g := by
  unfold loadRulepack
  by_cases hpid : policyId = ""
  · simp [hpid]
  · simp only [if_neg hpid]
    rcases hcs : (if forceRefresh = false then getCachedRulepack cfg ctx.nowMs g policyId
        else (none, g)) with ⟨copt, g1⟩
    have hg1 : queueAuditFrame g1 = queueAuditFrame g := by
      by_cases hf : forceRefresh = false
      · rw [if_pos hf] at hcs
        have hframe := (getCachedRulepack_frame cfg ctx.nowMs g policyId).1
        rw [hcs] at hframe
        exact hframe
      · rw [if_neg hf] at hcs
        cases hcs
        rfl
    cases copt with
    | some cached => simpa using hg1
    | none =>
      by_cases hoff : g1.isOffline = true
      · simpa [hoff] using hg1
      · simp only [Bool.not_eq_true] at hoff
        simp only [hoff, Bool.false_eq_true, if_false]
        cases hrr : (requestWithRetry cfg.retry rpTransport
            (cfg.endpoint ++ "/policies/" ++ policyId ++ "/rulepack") false).result with
        | error e =>
          simp only [hrr]
          exact hg1
        | ok response =>
          simp only [hrr]
          have hcrf := (cacheRulepack_frame cfg ctx.hashString ctx.nowMs
            { g1 with isOffline := (requestWithRetry cfg.retry rpTransport
              (cfg.endpoint ++ "/policies/" ++ policyId ++ "/rulepack") false).isOffline }
            policyId response.data).1
          rw [hcrf]
          exact hg1

theorem requestWithRetry_ok_offline {α : Type} (retry : RetryOptions)
    (transport : Nat → TransportOutcome α) (url : String) (off : Bool)
    (response : HttpResponse α)
    (h : (requestWithRetry retry transport url off).result = .ok response) :
    (requestWithRetry retry transport url off).isOffline = false :=
  requestWithRetryLoop_ok_offline retry transport url (retry.retries + 1) 0 off response h

theorem requestWithRetry_error_network_offline {α : Type} (retry : RetryOptions)
    (transport : Nat → TransportOutcome α) (url : String) (off : Bool) (e : SdkError)
    (h : (requestWithRetry retry transport url off).result = .error e)
    (hnet : e.isNetworkError = true) :
    (requestWithRetry retry transport url off).isOffline = true :=
  requestWithRetryLoop_error_network_offline retry transport url (retry.retries + 1) 0 off e h hnet

theorem loadRulepack_ok_offline (cfg : GovernorConfig) (ctx : Ctx)
    (rpTransport : Nat → TransportOutcome Rulepack) (g : GovState)
    (policyId : String) (forceRefresh : Bool) (hoff : g.isOffline = false) :
    ∀ x, (loadRulepack cfg ctx rpTransport g policyId forceRefresh).1 = .ok x →
      (loadRulepack cfg ctx rpTransport g policyId forceRefresh).2.isOffline = false := by
  unfold loadRulepack
  by_cases hpid : policyId = ""
  · simp [hpid]
  · simp only [if_neg hpid]
    rcases hcs : (if forceRefresh = false then getCachedRulepack cfg ctx.nowMs g policyId
        else (none, g)) with ⟨copt, g1⟩
    have hg1off : g1.isOffline = false := by
      by_cases hf : forceRefresh = false
      · rw [if_pos hf] at hcs
        have hframe := (getCachedRulepack_frame cfg ctx.nowMs g policyId).2
        rw [hcs] at hframe
        rw [hframe]
        exact hoff
      · rw [if_neg hf] at hcs
        cases hcs
        exact hoff
    cases copt with
    | some cached =>
      intro x hx
      simpa using hg1off
    | none =>
      simp only [hg1off, Bool.false_eq_true, if_false]
      cases hrr : (requestWithRetry cfg.retry rpTransport
          (cfg.endpoint ++ "/policies/" ++ policyId ++ "/rulepack") false).result with
      | error e => intro x hx; simp [hrr] at hx
      | ok response =>
        intro x hx
        simp only [hrr]
        have hoff2 := requestWithRetry_ok_offline cfg.retry rpTransport
          (cfg.endpoint ++ "/policies/" ++ policyId ++ "/rulepack") false response hrr
        have hcrf := (cacheRulepack_frame cfg ctx.hashString ctx.nowMs
          { g1 with isOffline := (requestWithRetry cfg.retry rpTransport
            (cfg.endpoint ++ "/policies/" ++ policyId ++ "/rulepack") false).isOffline }
          policyId response.data).2
        rw [hcrf]
        exact hoff2

theorem loadRulepack_error_network_offline (cfg : GovernorConfig) (ctx : Ctx)
    (rpTransport : Nat → TransportOutcome Rulepack) (g : GovState)
    (policyId : String) (forceRefresh : Bool) :
    ∀ e, (loadRulepack cfg ctx rpTransport g policyId forceRefresh).1 = .error e →
      e.isNetworkError = true →
      (loadRulepack cfg ctx rpTransport g policyId forceRefresh).2.isOffline = true := by
  unfold loadRulepack
  by_cases hpid : policyId = ""
  · simp only [if_pos hpid]
    intro e he hnet
    rw [Except.error.injEq] at he
    rw [← he] at hnet
    simp [SdkError.isNetworkError] at hnet
  · simp only [if_neg hpid]
    rcases hcs : (if forceRefresh = false then getCachedRulepack cfg ctx.nowMs g policyId
        else (none, g)) with ⟨copt, g1⟩
    cases copt with
    | some cached => intro e he; simp at he
    | none =>
      by_cases hoff1 : g1.isOffline = true
      · simp only [hoff1, if_true]
        intro e he
        simp at he
      · simp only [Bool.not_eq_true] at hoff1
        simp only [hoff1, Bool.false_eq_true, if_false]
        cases hrr : (requestWithRetry cfg.retry rpTransport
            (cfg.endpoint ++ "/policies/" ++ policyId ++ "/rulepack") false).result with
        | error e2 =>
          intro e he hnet
          rw [Except.error.injEq] at he
          subst he
          exact requestWithRetry_error_network_offline cfg.retry rpTransport
            (cfg.endpoint ++ "/policies/" ++ policyId ++ "/rulepack") false e2 hrr hnet
        | ok response => intro e he; simp [hrr] at he

theorem appendAuditRecord_frame (cfg : GovernorConfig) (g : GovState) (record : AuditRecord) :
    (appendAuditRecord cfg g record).offlineQueue = g.offlineQueue ∧
    (appendAuditRecord cfg g record).storedQueue = g.storedQueue ∧
    (appendAuditRecord cfg g record).isOffline = g.isOffline := by
  by_cases h : cfg.enableAuditLog = false <;> simp [appendAuditRecord, h]

theorem evaluate_offline_routes (cfg : GovernorConfig) (ctx : Ctx) (tr : EvalTransports)
    (g : GovState) (payload : EvaluationPayload)
    (hpid : ¬payload.policyId = "")
    (hroute : g.isOffline = true ∨ offlineRequested payload = true) :
    (evaluate cfg ctx tr g payload).2 =
      enqueueOfflineEvent g ⟨.evaluation payload, ctx.isoNow⟩ ∧
    ∃ r, (evaluate cfg ctx tr g payload).1 = .ok r ∧ r.decision = "review" ∧
      r.metadata.offline = some true := by
  have hcond : (g.isOffline || offlineRequested payload) = true := by
    rcases hroute with h | h <;> simp [h]
  unfold evaluate
  rw [if_neg hpid, if_pos hcond]
  exact ⟨rfl, _, rfl, rfl, rfl⟩

theorem ensureRulepackCached_frame (cfg : GovernorConfig) (ctx : Ctx)
    (rpTransport : Nat → TransportOutcome Rulepack) (g : GovState) (policyId : String) :
    queueAuditFrame (ensureRulepackCached cfg ctx rpTransport g policyId).2 =
      queueAuditFrame g := by
  unfold ensureRulepackCached
  rcases hgc : getCachedRulepack cfg ctx.nowMs g policyId with ⟨copt, g1⟩
  have hg1 : queueAuditFrame g1 = queueAuditFrame g := by
    have hframe := (getCachedRulepack_frame cfg ctx.nowMs g policyId).1
    rw [hgc] at hframe
    exact hframe
  cases copt with
  | some cached => simpa using hg1
  | none =>
    dsimp only
    rcases hlr : loadRulepack cfg ctx rpTransport g1 policyId true with ⟨res, g2⟩
    have hg2 : queueAuditFrame g2 = queueAuditFrame g1 := by
      have hframe := loadRulepack_frame cfg ctx rpTransport g1 policyId true
      rw [hlr] at hframe
      exact hframe
    cases res with
    | error e => simpa using hg2.trans hg1
    | ok x => simpa using hg2.trans hg1

theorem ensureRulepackCached_ok_offline (cfg : GovernorConfig) (ctx : Ctx)
    (rpTransport : Nat → TransportOutcome Rulepack) (g : GovState) (policyId : String)
    (hoff : g.isOffline = false) :
    ∀ u, (ensureRulepackCached cfg ctx rpTransport g policyId).1 = .ok u →
      (ensureRulepackCached cfg ctx rpTransport g policyId).2.isOffline = false := by
  unfold ensureRulepackCached
  rcases hgc : getCachedRulepack cfg ctx.nowMs g policyId with ⟨copt, g1⟩
  have hg1off : g1.isOffline = false := by
    have hframe := (getCachedRulepack_frame cfg ctx.nowMs g policyId).2
    rw [hgc] at hframe
    simpa [hoff] using hframe
  cases copt with
  | some cached => intro u hu; simpa using hg1off
  | none =>
    dsimp only
    rcases hlr : loadRulepack cfg ctx rpTransport g1 policyId true with ⟨res, g2⟩
    cases res with
    | error e => intro u hu; simp at hu
    | ok x =>
      intro u hu
      have h1 : (loadRulepack cfg ctx rpTransport g1 policyId true).1 = .ok x := by rw [hlr]
      have h2 := loadRulepack_ok_offline cfg ctx rpTransport g1 policyId true hg1off x h1
      rw [hlr] at h2
      simpa using h2

theorem ensureRulepackCached_error_network_offline (cfg : GovernorConfig) (ctx : Ctx)
    (rpTransport : Nat → TransportOutcome Rulepack) (g : GovState) (policyId : String) :
    ∀ e, (ensureRulepackCached cfg ctx rpTransport g policyId).1 = .error e →
      e.isNetworkError = true →
      (ensureRulepackCached cfg ctx rpTransport g policyId).2.isOffline = true := by
  unfold ensureRulepackCached
  rcases hgc : getCachedRulepack cfg ctx.nowMs g policyId with ⟨copt, g1⟩
  cases copt with
  | some cached => intro e he; simp at he
  | none =>
    dsimp only
    rcases hlr : loadRulepack cfg ctx rpTransport g1 policyId true with ⟨res, g2⟩
    cases res with
    | error e2 =>
      intro e he hnet
      simp only [Except.error.injEq] at he
      subst he
      have h1 : (loadRulepack cfg ctx rpTransport g1 policyId true).1 = .error e2 := by rw [hlr]
      have h2 := loadRulepack_error_network_offline cfg ctx rpTransport g1 policyId true e2 h1 hnet
      rw [hlr] at h2
      simpa using h2
    | ok x => intro e he; simp at he

theorem evaluate_online_spec (cfg : GovernorConfig) (ctx : Ctx) (tr : EvalTransports)
    (g : GovState) (payload : EvaluationPayload)
    (hoff : g.isOffline = false) (hreq : offlineRequested payload = false) :
    (evaluate cfg ctx tr g payload).2.offlineQueue = g.offlineQueue ∧
    (evaluate cfg ctx tr g payload).2.storedQueue = g.storedQueue ∧
    (∀ r, (evaluate cfg ctx tr g payload).1 = .ok r →
      (evaluate cfg ctx tr g payload).2.isOffline = false) ∧
    (∀ e, (evaluate cfg ctx tr g payload).1 = .error e →
      (evaluate cfg ctx tr g payload).2.auditLog = g.auditLog ∧
      (evaluate cfg ctx tr g payload).2.storedAuditLog = g.storedAuditLog) ∧
    (cfg.enableAuditLog = true → ∀ r, (evaluate cfg ctx tr g payload).1 = .ok r →
      ∃ rec : AuditRecord, rec.action = "evaluate" ∧
        (evaluate cfg ctx tr g payload).2.auditLog = auditLogAfterAppend g.auditLog rec) := by
  unfold evaluate
  by_cases hpid : payload.policyId = ""
  · simp [hpid]
  · have hcond : ¬((g.isOffline || offlineRequested payload) = true) := by
      simp [hoff, hreq]
    rw [if_neg hpid, if_neg hcond]
    rcases hens : ensureRulepackCached cfg ctx tr.rulepackFetch g payload.policyId with ⟨res1, g2⟩
    have hensframe : queueAuditFrame g2 = queueAuditFrame g := by
      have hframe := ensureRulepackCached_frame cfg ctx tr.rulepackFetch g payload.policyId
      rw [hens] at hframe
      exact hframe
    have hq2 : g2.offlineQueue = g.offlineQueue := congrArg (fun t => t.1) hensframe
    have hsq2 : g2.storedQueue = g.storedQueue := congrArg (fun t => t.2.1) hensframe
    have ha2 : g2.auditLog = g.auditLog := congrArg (fun t => t.2.2.1) hensframe
    have hsa2 : g2.storedAuditLog = g.storedAuditLog := congrArg (fun t => t.2.2.2) hensframe
    cases res1 with
    | error e =>
      dsimp only
      exact ⟨hq2, hsq2, fun r hr => by simp at hr, fun e2 he => ⟨ha2, hsa2⟩,
        fun hen r hr => by simp at hr⟩
    | ok u =>
      dsimp only
      cases hrr : (requestWithRetry cfg.retry tr.evalPost
          (cfg.endpoint ++ "/policies/" ++ payload.policyId ++ "/evaluate")
          g2.isOffline).result with
      | error e =>
        exact ⟨hq2, hsq2, fun r hr => by simp at hr, fun e2 he => ⟨ha2, hsa2⟩,
          fun hen r hr => by simp at hr⟩
      | ok response =>
        have hoff4 := requestWithRetry_ok_offline cfg.retry tr.evalPost
          (cfg.endpoint ++ "/policies/" ++ payload.policyId ++ "/evaluate")
          g2.isOffline response hrr
        by_cases hen : cfg.enableAuditLog = true
        · simp only [hen, if_true]
          refine ⟨?_, ?_, ?_, ?_, ?_⟩
          · rw [(appendAuditRecord_frame cfg _ _).1]
            exact hq2
          · rw [(appendAuditRecord_frame cfg _ _).2.1]
            exact hsq2
          · intro r hr
            rw [(appendAuditRecord_frame cfg _ _).2.2]
            exact hoff4
          · intro e2 he
            simp at he
          · intro _ r hr
            refine ⟨⟨"audit_" ++ ctx.nonce, ctx.isoNow, "evaluate",
              ⟨payload.policyId, response.data.decision, response.data.score, false,
                match payload.input with
                | some text => ctx.detectPII text
                | none => []⟩⟩, rfl, ?_⟩
            have hne : ¬cfg.enableAuditLog = false := by simp [hen]
            simp only [appendAuditRecord, if_neg hne]
            rw [ha2]
        · simp only [if_neg hen]
          exact ⟨hq2, hsq2, fun r hr => hoff4, fun e2 he => by simp at he,
            fun henT r hr => absurd henT hen⟩

theorem evaluate_error_network_offline (cfg : GovernorConfig) (ctx : Ctx)
    (tr : EvalTransports) (g : GovState) (payload : EvaluationPayload) :
    ∀ e, (evaluate cfg ctx tr g payload).1 = .error e → e.isNetworkError = true →
      (evaluate cfg ctx tr g payload).2.isOffline = true := by
  unfold evaluate
  by_cases hpid : payload.policyId = ""
  · simp only [if_pos hpid]
    intro e he hnet
    rw [Except.error.injEq] at he
    rw [← he] at hnet
    simp [SdkError.isNetworkError] at hnet
  · rw [if_neg hpid]
    by_cases hcond : (g.isOffline || offlineRequested payload) = true
    · rw [if_pos hcond]
      intro e he
      simp at he
    · rw [if_neg hcond]
      rcases hens : ensureRulepackCached cfg ctx tr.rulepackFetch g payload.policyId with ⟨res1, g2⟩
      cases res1 with
      | error e1 =>
        dsimp only
        intro e he hnet
        rw [Except.error.injEq] at he
        subst he
        have h1 : (ensureRulepackCached cfg ctx tr.rulepackFetch g payload.policyId).1 =
            .error e1 := by rw [hens]
        have h2 := ensureRulepackCached_error_network_offline cfg ctx tr.rulepackFetch g
          payload.policyId e1 h1 hnet
        rw [hens] at h2
        simpa using h2
      | ok u =>
        dsimp only
        cases hrr : (requestWithRetry cfg.retry tr.evalPost
            (cfg.endpoint ++ "/policies/" ++ payload.policyId ++ "/evaluate")
            g2.isOffline).result with
        | error e1 =>
          intro e he hnet
          rw [Except.error.injEq] at he
          subst he
          exact requestWithRetry_error_network_offline cfg.retry tr.evalPost
            (cfg.endpoint ++ "/policies/" ++ payload.policyId ++ "/evaluate")
            g2.isOffline e1 hrr hnet
        | ok response =>
          intro e he
          simp at he

theorem updatePolicies_online_spec (cfg : GovernorConfig) (ctx : Ctx)
    (puTransport : Nat → TransportOutcome Unit) (g : GovState)
    (policies : List PolicyDefinition) (hoff : g.isOffline = false) :
    (updatePolicies cfg ctx puTransport g policies).2.offlineQueue = g.offlineQueue ∧
    (updatePolicies cfg ctx puTransport g policies).2.storedQueue = g.storedQueue ∧
    (∀ u, (updatePolicies cfg ctx puTransport g policies).1 = .ok u →
      (updatePolicies cfg ctx puTransport g policies).2.isOffline = false) := by
  unfold updatePolicies
  rw [if_neg (by simp [hoff])]
  dsimp only
  cases hrr : (requestWithRetry cfg.retry puTransport (cfg.endpoint ++ "/policies")
      g.isOffline).result with
  | error e => exact ⟨rfl, rfl, fun u hu => by simp at hu⟩
  | ok resp =>
    exact ⟨rfl, rfl, fun u hu =>
      requestWithRetry_ok_offline cfg.retry puTransport (cfg.endpoint ++ "/policies")
        g.isOffline resp hrr⟩

theorem replay_not_offline (p : EvaluationPayload) :
    offlineRequested (replayEvaluationPayload p) = false := by
  cases hp : p.options <;> simp [replayEvaluationPayload, offlineRequested, hp]

theorem deliverOfflineEvent_spec (cfg : GovernorConfig) (ctx : Ctx) (orc : FlushOracles)
    (g : GovState) (event : OfflineEvent) (hoff : g.isOffline = false) :
    (deliverOfflineEvent cfg ctx orc g event).2.offlineQueue = g.offlineQueue ∧
    (deliverOfflineEvent cfg ctx orc g event).2.storedQueue = g.storedQueue ∧
    (∀ u, (deliverOfflineEvent cfg ctx orc g event).1 = .ok u →
      (deliverOfflineEvent cfg ctx orc g event).2.isOffline = false) := by
  unfold deliverOfflineEvent
  cases hev : event.payload with
  | evaluation originalPayload =>
    dsimp only
    rcases hevv : evaluate cfg ctx orc.evalTr g (replayEvaluationPayload originalPayload)
      with ⟨res, g1⟩
    have hspec := evaluate_online_spec cfg ctx orc.evalTr g
      (replayEvaluationPayload originalPayload) hoff (replay_not_offline originalPayload)
    rw [hevv] at hspec
    obtain ⟨hq, hsq, hok, _⟩ := hspec
    cases res with
    | error e => exact ⟨hq, hsq, fun u hu => by simp at hu⟩
    | ok r => exact ⟨hq, hsq, fun u hu => hok r rfl⟩
  | policyUpdate policies =>
    dsimp only
    exact updatePolicies_online_spec cfg ctx orc.updateTr g policies hoff

theorem flushLoop_spec (cfg : GovernorConfig) (ctx : Ctx) (oracles : Nat → FlushOracles) :
    ∀ (qs : List OfflineEvent) (fuel i : Nat) (g : GovState),
      g.offlineQueue = qs → g.isOffline = false → qs.length ≤ fuel →
      ∃ (k : Nat) (res : Except SdkError Unit) (g2 : GovState),
        (∀ delivered : List OfflineEvent,
          flushLoop cfg ctx oracles i fuel delivered g =
            some ((res, g2), delivered ++ qs.take k)) ∧
        g2.offlineQueue = qs.drop k ∧
        k ≤ qs.length ∧
        (res = .ok () → k = qs.length) ∧
        (res ≠ .ok () → k < qs.length) := by
  intro qs
  induction qs with
  | nil =>
    intro fuel i g hq hoff hlen
    refine ⟨0, .ok (), persistOfflineQueue g, ?_, ?_, ?_, ?_, ?_⟩
    · intro delivered
      cases fuel with
      | zero => simp [flushLoop, hq]
      | succ f => simp [flushLoop, hq]
    · simp [persistOfflineQueue, hq]
    · simp
    · intro _
      simp
    · intro hne
      exact absurd rfl hne
  | cons ev rest ih =>
    intro fuel i g hq hoff hlen
    cases fuel with
    | zero =>
      simp at hlen
    | succ f =>
      have hd := deliverOfflineEvent_spec cfg ctx (oracles i)
        { g with offlineQueue := rest } ev (by simpa using hoff)
      rcases hdel : deliverOfflineEvent cfg ctx (oracles i)
        { g with offlineQueue := rest } ev with ⟨dres, g1⟩
      rw [hdel] at hd
      obtain ⟨hq1, hsq1, hok1⟩ := hd
      have hq1r : g1.offlineQueue = rest := by simpa using hq1
      cases dres with
      | ok u =>
        cases u
        have hoff1 : g1.isOffline = false := hok1 () rfl
        have hlenr : rest.length ≤ f := by
          simp only [List.length_cons] at hlen
          omega
        obtain ⟨k1, res, g2, hloop, hdrop, hk, hkok, hkne⟩ :=
          ih f (i + 1) g1 hq1r hoff1 hlenr
        refine ⟨k1 + 1, res, g2, ?_, ?_, ?_, ?_, ?_⟩
        · intro delivered
          have hstep : flushLoop cfg ctx oracles i (f + 1) delivered g =
              flushLoop cfg ctx oracles (i + 1) f (delivered ++ [ev]) g1 := by
            simp only [flushLoop, hq]
            rw [hdel]
          rw [hstep, hloop (delivered ++ [ev])]
          simp [List.append_assoc]
        · simpa using hdrop
        · simp only [List.length_cons]
          omega
        · intro hres
          have := hkok hres
          simp only [List.length_cons]
          omega
        · intro hres
          have := hkne hres
          simp only [List.length_cons]
          omega
      | error e =>
        refine ⟨0, .error e, { g1 with offlineQueue := ev :: g1.offlineQueue },
          ?_, ?_, ?_, ?_, ?_⟩
        · intro delivered
          simp only [flushLoop, hq]
          rw [hdel]
          simp
        · simp [hq1r]
        · simp
        · intro hres
          simp at hres
        · intro _
          simp only [List.length_cons]
          omega

/-- C2: flushOfflineQueue drains strictly in FIFO order: some count k of leading
events is delivered, in queue order (the delivered trace is exactly the take of
the original queue); the remaining queue is exactly the corresponding drop, so
a failed event sits back at the head ahead of every later event; a run that
returns ok has drained everything, and a run that throws stopped before the end
and propagated the delivery error to the caller. -/
theorem c2_flush_fifo_order (cfg : GovernorConfig) (ctx : Ctx)
    (oracles : Nat → FlushOracles) (g : GovState) (hoff : g.isOffline = false) :
    ∃ (k : Nat) (res : Except SdkError Unit) (g2 : GovState),
      flushOfflineQueue cfg ctx oracles g = some ((res, g2), g.offlineQueue.take k) ∧
      g2.offlineQueue = g.offlineQueue.drop k ∧
      k ≤ g.offlineQueue.length ∧
      (res = .ok () → g2.offlineQueue = []) ∧
      (∀ e, res = .error e → k < g.offlineQueue.length) := by
  obtain ⟨k, res, g2, hloop, hdrop, hk, hkok, hkne⟩ :=
    flushLoop_spec cfg ctx oracles g.offlineQueue g.offlineQueue.length 0 g rfl hoff le_rfl
  refine ⟨k, res, g2, ?_, hdrop, hk, ?_, ?_⟩
  · unfold flushOfflineQueue
    rw [if_neg (by simp [hoff])]
    simpa using hloop []
  · intro hres
    rw [hdrop, hkok hres, List.drop_length]
  · intro e hres
    refine hkne ?_
    rw [hres]
    simp

theorem c2_flush_fifo_order_witness :
    ∃ (k : Nat) (res : Except SdkError Unit) (g2 : GovState),
      flushOfflineQueue cfgSample ctxSample oraclesSample gQueuedSample =
        some ((res, g2), gQueuedSample.offlineQueue.take k) ∧
      g2.offlineQueue = gQueuedSample.offlineQueue.drop k ∧
      k ≤ gQueuedSample.offlineQueue.length ∧
      (res = .ok () → g2.offlineQueue = []) ∧
      (∀ e, res = .error e → k < gQueuedSample.offlineQueue.length) :=
  c2_flush_fifo_order cfgSample ctxSample oraclesSample gQueuedSample rfl

/-- C1: an offline-routed evaluate stores the caller's payload verbatim in the
queued evaluation event (the original offline option is kept at enqueue time);
at replay time the flush loop hands evaluate a copy whose options carry
offline false, or no options object when the original had none; consequently a
successful replay of such an event drains it without enqueueing any new
offline event, leaving the queue and its persisted copy empty. -/
theorem c1_replay_strips_offline_option (cfg : GovernorConfig) (ctx : Ctx)
    (tr : EvalTransports) (oracles : Nat → FlushOracles) (p : EvaluationPayload)
    (t : String) (g g1 : GovState)
    (hpid : ¬p.policyId = "")
    (henq : g.isOffline = true ∨ offlineRequested p = true)
    (hoff1 : g1.isOffline = false)
    (hq1 : g1.offlineQueue = [⟨.evaluation p, t⟩])
    (hdeliver : (deliverOfflineEvent cfg ctx (oracles 0) { g1 with offlineQueue := [] }
        ⟨.evaluation p, t⟩).1 = .ok ()) :
    (evaluate cfg ctx tr g p).2.offlineQueue =
      g.offlineQueue ++ [⟨.evaluation p, ctx.isoNow⟩] ∧
    (replayEvaluationPayload p).policyId = p.policyId ∧
    (replayEvaluationPayload p).options =
      Option.map (fun o => { o with offline := some false }) p.options ∧
    ∃ g2, flushOfflineQueue cfg ctx oracles g1 =
        some ((.ok (), g2), [⟨.evaluation p, t⟩]) ∧
      g2.offlineQueue = [] ∧ g2.storedQueue = [] := by
  refine ⟨?_, rfl, ?_, ?_⟩
  · rw [(evaluate_offline_routes cfg ctx tr g p hpid henq).1]
    rfl
  · cases hp : p.options <;> simp [replayEvaluationPayload, hp]
  · have hds := deliverOfflineEvent_spec cfg ctx (oracles 0)
      { g1 with offlineQueue := [] } ⟨.evaluation p, t⟩ (by simpa using hoff1)
    rcases hdel : deliverOfflineEvent cfg ctx (oracles 0)
      { g1 with offlineQueue := [] } ⟨.evaluation p, t⟩ with ⟨dres, gA⟩
    rw [hdel] at hds hdeliver
    obtain ⟨hqA, hsqA, hokA⟩ := hds
    have hqA2 : gA.offlineQueue = [] := by simpa using hqA
    have hdres : dres = .ok () := by simpa using hdeliver
    subst hdres
    refine ⟨persistOfflineQueue gA, ?_, ?_, ?_⟩
    · unfold flushOfflineQueue
      rw [if_neg (by simp [hoff1])]
      have hlen1 : g1.offlineQueue.length = 1 := by rw [hq1]; rfl
      rw [hlen1]
      show flushLoop cfg ctx oracles 0 (Nat.succ 0) [] g1 = _
      simp only [flushLoop, hq1]
      rw [hdel]
      dsimp only
      simp only [flushLoop, hqA2]
      simp
    · simp [persistOfflineQueue, hqA2]
    · simp [persistOfflineQueue, hqA2]

theorem c1_replay_strips_offline_option_witness :
    (evaluate cfgSample ctxSample trOkSample gEmpty pOfflineSample).2.offlineQueue =
      gEmpty.offlineQueue ++ [⟨.evaluation pOfflineSample, ctxSample.isoNow⟩] ∧
    (replayEvaluationPayload pOfflineSample).policyId = pOfflineSample.policyId ∧
    (replayEvaluationPayload pOfflineSample).options =
      Option.map (fun o => { o with offline := some false }) pOfflineSample.options ∧
    ∃ g2, flushOfflineQueue cfgSample ctxSample oraclesSample gQueuedSample =
        some ((.ok (), g2), [⟨.evaluation pOfflineSample, "t0"⟩]) ∧
      g2.offlineQueue = [] ∧ g2.storedQueue = [] :=
  c1_replay_strips_offline_option cfgSample ctxSample trOkSample oraclesSample
    pOfflineSample "t0" gEmpty gQueuedSample (by decide) (Or.inr (by decide)) rfl rfl
    (by decide)

/-- C3: connectivity transitions.  Inside the retry controller a successful
attempt resets the connectivity flag to connected; an attempt that throws a
NetworkError (the connectivity failure kind of the error taxonomy) sets the
flag to offline before any further retry begins, as witnessed by the flag
observed at the start of the following attempt, and a call that ultimately
throws a network_error leaves the flag offline.  Consequently an evaluate call
that ends in a connectivity failure leaves the instance offline, and the very
next evaluate call (here: on any offline instance, without an explicit offline
option) is queued as an evaluation offline event with a synthetic review
result instead of being sent. -/
theorem c3_connectivity_transitions :
    (∀ (α : Type) (retry : RetryOptions) (transport : Nat → TransportOutcome α)
        (url : String) (off : Bool) (response : HttpResponse α),
      (requestWithRetry retry transport url off).result = .ok response →
      (requestWithRetry retry transport url off).isOffline = false) ∧
    (∀ (α : Type) (retry : RetryOptions) (transport : Nat → TransportOutcome α)
        (url : String) (off : Bool) (e : SdkError),
      (requestWithRetry retry transport url off).result = .error e →
      e.isNetworkError = true →
      (requestWithRetry retry transport url off).isOffline = true) ∧
    (∀ (α : Type) (retry : RetryOptions) (transport : Nat → TransportOutcome α)
        (url : String) (off : Bool) (k : Nat),
      transportNetworkError url (transport k) = true →
      k + 1 < (requestWithRetry retry transport url off).offTrace.length →
      (requestWithRetry retry transport url off).offTrace.getD (k + 1) false = true) ∧
    (∀ (cfg : GovernorConfig) (ctx : Ctx) (tr : EvalTransports) (g : GovState)
        (payload : EvaluationPayload) (e : SdkError),
      (evaluate cfg ctx tr g payload).1 = .error e → e.isNetworkError = true →
      (evaluate cfg ctx tr g payload).2.isOffline = true) ∧
    (∀ (cfg : GovernorConfig) (ctx : Ctx) (tr : EvalTransports) (g2 : GovState)
        (payload2 : EvaluationPayload),
      g2.isOffline = true → ¬payload2.policyId = "" →
      (evaluate cfg ctx tr g2 payload2).2.offlineQueue =
        g2.offlineQueue ++ [⟨.evaluation payload2, ctx.isoNow⟩] ∧
      ∃ r, (evaluate cfg ctx tr g2 payload2).1 = .ok r ∧ r.decision = "review" ∧
        r.metadata.offline = some true) := by
  refine ⟨?_, ?_, ?_, ?_, ?_⟩
  · intro α retry transport url off response h
    exact requestWithRetry_ok_offline retry transport url off response h
  · intro α retry transport url off e h hnet
    exact requestWithRetry_error_network_offline retry transport url off e h hnet
  · intro α retry transport url off k hnet hlen
    have hnet0 : transportNetworkError url (transport (0 + k)) = true := by
      rwa [Nat.zero_add]
    exact requestWithRetryLoop_offTrace_net retry transport url
      (retry.retries + 1) 0 off k hnet0 hlen
  · intro cfg ctx tr g payload e h hnet
    exact evaluate_error_network_offline cfg ctx tr g payload e h hnet
  · intro cfg ctx tr g2 payload2 hoff2 hpid2
    obtain ⟨hstate, r, hr, hdec, hmeta⟩ :=
      evaluate_offline_routes cfg ctx tr g2 payload2 hpid2 (Or.inl hoff2)
    refine ⟨?_, r, hr, hdec, hmeta⟩
    rw [hstate]
    rfl

theorem c3_connectivity_transitions_witness :
    ((evaluate cfgSample ctxSample trNetFailSample gCachedSample pPlainSample).2.isOffline =
      true) ∧
    ((evaluate cfgSample ctxSample trOkSample
        (evaluate cfgSample ctxSample trNetFailSample gCachedSample pPlainSample).2
        pPlainSample).2.offlineQueue =
      (evaluate cfgSample ctxSample trNetFailSample gCachedSample pPlainSample).2.offlineQueue ++
        [⟨.evaluation pPlainSample, ctxSample.isoNow⟩]) := by
  constructor
  · exact c3_connectivity_transitions.2.2.2.1 cfgSample ctxSample trNetFailSample
      gCachedSample pPlainSample (.governor "network_error" "HTTP 500: boom")
      (by decide) (by decide)
  · exact (c3_connectivity_transitions.2.2.2.2 cfgSample ctxSample trOkSample
      (evaluate cfgSample ctxSample trNetFailSample gCachedSample pPlainSample).2
      pPlainSample (by decide) (by decide)).1

/-- C10: an offline-routed evaluate call (connectivity mode offline or an
explicit offline option) leaves both the in-memory audit log and its persisted
copy unchanged even when audit logging is enabled; an evaluate call that
throws also leaves the audit log unchanged; only an online evaluate call that
returns a result appends, and what it appends is one audit record with action
evaluate, via the bounded audit append. -/
theorem c10_offline_no_audit (cfg : GovernorConfig) (ctx : Ctx) (tr : EvalTransports)
    (g : GovState) (payload : EvaluationPayload) :
    (g.isOffline = true ∨ offlineRequested payload = true →
      (evaluate cfg ctx tr g payload).2.auditLog = g.auditLog ∧
      (evaluate cfg ctx tr g payload).2.storedAuditLog = g.storedAuditLog) ∧
    (∀ e, (evaluate cfg ctx tr g payload).1 = .error e →
      (evaluate cfg ctx tr g payload).2.auditLog = g.auditLog) ∧
    (cfg.enableAuditLog = true → g.isOffline = false → offlineRequested payload = false →
      ∀ r, (evaluate cfg ctx tr g payload).1 = .ok r →
        ∃ rec : AuditRecord, rec.action = "evaluate" ∧
          (evaluate cfg ctx tr g payload).2.auditLog =
            auditLogAfterAppend g.auditLog rec) := by
  refine ⟨?_, ?_, ?_⟩
  · intro hroute
    by_cases hpid : payload.policyId = ""
    · unfold evaluate
      rw [if_pos hpid]
      exact ⟨rfl, rfl⟩
    · rw [(evaluate_offline_routes cfg ctx tr g payload hpid hroute).1]
      exact ⟨rfl, rfl⟩
  · intro e he
    by_cases hpid : payload.policyId = ""
    · unfold evaluate at he ⊢
      rw [if_pos hpid]
    · by_cases hroute : g.isOffline = true ∨ offlineRequested payload = true
      · obtain ⟨r, hr, _, _⟩ := (evaluate_offline_routes cfg ctx tr g payload hpid hroute).2
        rw [hr] at he
        simp at he
      · have hoffF : g.isOffline = false := by
          rcases Bool.eq_false_or_eq_true g.isOffline with h | h
          · exact absurd (Or.inl h) hroute
          · exact h
        have hreqF : offlineRequested payload = false := by
          rcases Bool.eq_false_or_eq_true (offlineRequested payload) with h | h
          · exact absurd (Or.inr h) hroute
          · exact h
        exact ((evaluate_online_spec cfg ctx tr g payload hoffF hreqF).2.2.2.1 e he).1
  · intro hen hoffF hreqF r hr
    exact (evaluate_online_spec cfg ctx tr g payload hoffF hreqF).2.2.2.2 hen r hr

theorem c10_offline_no_audit_witness :
    ((evaluate cfgSample ctxSample trOkSample gEmpty pOfflineSample).2.auditLog =
      gEmpty.auditLog) ∧
    ∃ rec : AuditRecord, rec.action = "evaluate" ∧
      (evaluate cfgSample ctxSample trOkSample gCachedSample pPlainSample).2.auditLog =
        auditLogAfterAppend gCachedSample.auditLog rec := by
  constructor
  · exact ((c10_offline_no_audit cfgSample ctxSample trOkSample gEmpty pOfflineSample).1
      (Or.inr (by decide))).1
  · exact (c10_offline_no_audit cfgSample ctxSample trOkSample gCachedSample
      pPlainSample).2.2 rfl rfl rfl
      ⟨"p", "allow", none, "2026-01-01", ⟨none, none, [], some ⟨1, 0, 0⟩⟩⟩ (by decide)

/-- C8: when get finds a value only in the durable tier, it returns it,
promotes it into the in-process tier with the freshly computed expiry
now + configured TTL (not any expiry carried by the durable entry), and counts
a hit; an immediate second get of the same key is served by the in-process
tier alone — here read against an empty durable tier — and again counts a
hit. -/
theorem c8_durable_promotion {α : Type} (c : CacheConfig) (storage : List (String × α))
    (st : CacheState α) (now : ℤ) (key : String) (v : α)
    (hmem : assocFind st.memory key = none)
    (hstore : assocFind storage (c.nspace ++ ":" ++ key) = some v)
    (httl : 0 < c.ttlMs) :
    (cacheGet c storage st now key).1 = some v ∧
    assocFind (cacheGet c storage st now key).2.memory key =
      some ⟨v, .fin (now + c.ttlMs)⟩ ∧
    (cacheGet c [] (cacheGet c storage st now key).2 now key).1 = some v ∧
    (cacheGet c [] (cacheGet c storage st now key).2 now key).2.metrics.hits =
      (cacheGet c storage st now key).2.metrics.hits + 1 := by
  have hexp : cacheIsExpired (⟨v, .fin (now + c.ttlMs)⟩ : CacheEntry α) now = false := by
    simp only [cacheIsExpired]
    rw [decide_eq_false]
    omega
  have h1 : cacheGet c storage st now key =
      (some v, ⟨assocInsert st.memory key ⟨v, .fin (now + c.ttlMs)⟩,
        { st.metrics with hits := st.metrics.hits + 1 }⟩) := by
    simp only [cacheGet, hmem, cacheGetPersisted, hstore]
  refine ⟨by rw [h1], ?_, ?_, ?_⟩
  · rw [h1]
    exact assocFind_insert_self st.memory key ⟨v, .fin (now + c.ttlMs)⟩
  · rw [h1]
    simp only [cacheGet, assocFind_insert_self]
    rw [if_pos hexp]
  · rw [h1]
    simp only [cacheGet, assocFind_insert_self]
    rw [if_pos hexp]

theorem c8_durable_promotion_witness :
    (cacheGet (⟨"rulepack", 100⟩ : CacheConfig) [("rulepack:k", (7 : Nat))]
      ⟨[], ⟨0, 0, 0⟩⟩ 0 "k").1 = some 7 ∧
    assocFind (cacheGet (⟨"rulepack", 100⟩ : CacheConfig) [("rulepack:k", (7 : Nat))]
      ⟨[], ⟨0, 0, 0⟩⟩ 0 "k").2.memory "k" = some ⟨7, .fin (0 + 100)⟩ ∧
    (cacheGet ⟨"rulepack", 100⟩ []
      (cacheGet (⟨"rulepack", 100⟩ : CacheConfig) [("rulepack:k", (7 : Nat))]
        ⟨[], ⟨0, 0, 0⟩⟩ 0 "k").2 0 "k").1 = some 7 ∧
    (cacheGet ⟨"rulepack", 100⟩ []
      (cacheGet (⟨"rulepack", 100⟩ : CacheConfig) [("rulepack:k", (7 : Nat))]
        ⟨[], ⟨0, 0, 0⟩⟩ 0 "k").2 0 "k").2.metrics.hits =
      (cacheGet (⟨"rulepack", 100⟩ : CacheConfig) [("rulepack:k", (7 : Nat))]
        ⟨[], ⟨0, 0, 0⟩⟩ 0 "k").2.metrics.hits + 1 :=
  c8_durable_promotion ⟨"rulepack", 100⟩ [("rulepack:k", 7)] ⟨[], ⟨0, 0, 0⟩⟩ 0 "k" 7
    (by decide) (by decide) (by decide)

/-- C6: the rulepack cache key hashes the policyId joined with the checksum, so
(for a collision-free hash) caching the same policy under two different
checksums occupies two distinct slots; after the second store the first entry
is still present (superseded, not deleted) and resolving the policyId returns
the bundle with the most recently stored checksum. -/
theorem c6_content_addressed_cache (cfg : GovernorConfig) (hash : String → String)
    (now : ℤ) (g : GovState) (policyId : String) (rp1 rp2 : Rulepack)
    (hinj : Function.Injective hash) (hne : ¬rp1.checksum = rp2.checksum)
    (httl : 0 < rulepackTtlMs cfg rp2) :
    ¬createRulepackCacheKey hash policyId rp1.checksum =
      createRulepackCacheKey hash policyId rp2.checksum ∧
    assocFind (cacheRulepack cfg hash now (cacheRulepack cfg hash now g policyId rp1)
        policyId rp2).rulepackMemory (createRulepackCacheKey hash policyId rp1.checksum) =
      some ⟨rp1, .fin (now + rulepackTtlMs cfg rp1)⟩ ∧
    (getCachedRulepack cfg now (cacheRulepack cfg hash now
        (cacheRulepack cfg hash now g policyId rp1) policyId rp2) policyId).1 =
      some rp2 := by
  have hkeys : ¬createRulepackCacheKey hash policyId rp1.checksum =
      createRulepackCacheKey hash policyId rp2.checksum := by
    intro h
    exact hne (string_append_cancel (policyId ++ ":") _ _ (hinj h))
  have hexp : cacheIsExpired
      (⟨rp2, .fin (now + rulepackTtlMs cfg rp2)⟩ : CacheEntry Rulepack) now = false := by
    simp only [cacheIsExpired]
    rw [decide_eq_false]
    omega
  refine ⟨hkeys, ?_, ?_⟩
  · simp only [cacheRulepack, cacheSet, rulepackCacheConfig, Option.getD]
    rw [assocFind_insert_ne _ _ _ _ hkeys, assocFind_insert_self]
  · simp only [getCachedRulepack, cacheRulepack, cacheSet, rulepackCacheConfig, Option.getD,
      assocFind_insert_self]
    simp only [cacheGet, assocFind_insert_self]
    rw [if_pos hexp]

theorem c6_content_addressed_cache_witness :
    ¬createRulepackCacheKey (fun s => s) "p" rpSample.checksum =
      createRulepackCacheKey (fun s => s) "p" rpSample2.checksum ∧
    assocFind (cacheRulepack cfgSample (fun s => s) 0
        (cacheRulepack cfgSample (fun s => s) 0 gEmpty "p" rpSample) "p"
        rpSample2).rulepackMemory
        (createRulepackCacheKey (fun s => s) "p" rpSample.checksum) =
      some ⟨rpSample, .fin (0 + rulepackTtlMs cfgSample rpSample)⟩ ∧
    (getCachedRulepack cfgSample 0 (cacheRulepack cfgSample (fun s => s) 0
        (cacheRulepack cfgSample (fun s => s) 0 gEmpty "p" rpSample) "p" rpSample2)
        "p").1 = some rpSample2 :=
  c6_content_addressed_cache cfgSample (fun s => s) 0 gEmpty "p" rpSample rpSample2
    (fun a b h => h) (by decide) (by decide)

set_option maxRecDepth 4000 in
theorem auditLogAfterAppend_fold (cfg : GovernorConfig) (hen : cfg.enableAuditLog = true) :
    ∀ (rs : List AuditRecord) (g : GovState), g.auditLog.length ≤ 500 →
      (rs.foldl (appendAuditRecord cfg) g).auditLog =
        (g.auditLog ++ rs).drop (g.auditLog.length + rs.length - 500) := by
  intro rs
  induction rs with
  | nil =>
    intro g hlen
    simp only [List.foldl_nil, List.append_nil, List.length_nil, Nat.add_zero]
    have h0 : g.auditLog.length - 500 = 0 := by omega
    rw [h0, List.drop_zero]
  | cons r rs ih =>
    intro g hlen
    simp only [List.foldl_cons]
    have hne : ¬cfg.enableAuditLog = false := by simp [hen]
    have hstep : (appendAuditRecord cfg g r).auditLog =
        (g.auditLog ++ [r]).drop (g.auditLog.length + 1 - 500) := by
      simp only [appendAuditRecord, if_neg hne, auditLogAfterAppend]
      by_cases hb : 500 < (g.auditLog ++ [r]).length
      · rw [if_pos hb]
        have hidx : (g.auditLog ++ [r]).length - 500 = g.auditLog.length + 1 - 500 := by
          rw [List.length_append, List.length_singleton]
        rw [hidx]
      · rw [if_neg hb]
        simp only [List.length_append, List.length_singleton, Nat.not_lt] at hb
        have h0 : g.auditLog.length + 1 - 500 = 0 := by omega
        rw [h0, List.drop_zero]
    have hlen2 : (appendAuditRecord cfg g r).auditLog.length ≤ 500 := by
      rw [hstep]
      simp only [List.length_drop, List.length_append, List.length_singleton]
      omega
    have hih := ih (appendAuditRecord cfg g r) hlen2
    rw [hih, hstep, List.length_drop]
    rw [← List.drop_append_of_le_length
      (show g.auditLog.length + 1 - 500 ≤ (g.auditLog ++ [r]).length by simp; omega)]
    rw [List.drop_drop]
    have hl : (g.auditLog ++ [r]) ++ rs = g.auditLog ++ (r :: rs) := by simp
    rw [hl]
    have hidx2 : g.auditLog.length + 1 - 500 +
        ((g.auditLog ++ [r]).length - (g.auditLog.length + 1 - 500) + rs.length - 500) =
        g.auditLog.length + (r :: rs).length - 500 := by
      rw [List.length_append, List.length_singleton, List.length_cons]
      omega
    rw [hidx2]

/-- C9: with audit logging enabled, appending any sequence of records to an
initially empty audit log leaves exactly the most recent 500 records in their
original append order (the drop of all but the last 500); in particular any
run of at least 500 appends leaves a log of exactly 500 records. -/
theorem c9_audit_ring_buffer (cfg : GovernorConfig) (hen : cfg.enableAuditLog = true)
    (g : GovState) (hlog : g.auditLog = []) (rs : List AuditRecord) :
    (rs.foldl (appendAuditRecord cfg) g).auditLog = rs.drop (rs.length - 500) ∧
    (500 ≤ rs.length → (rs.foldl (appendAuditRecord cfg) g).auditLog.length = 500) := by
  have h := auditLogAfterAppend_fold cfg hen rs g (by rw [hlog]; simp)
  rw [hlog] at h
  simp only [List.nil_append, List.length_nil, Nat.zero_add] at h
  refine ⟨h, ?_⟩
  intro h500
  rw [h, List.length_drop]
  omega

theorem c9_audit_ring_buffer_witness :
    ((List.replicate 600 auditRecordSample).foldl (appendAuditRecord cfgSample)
      gEmpty).auditLog =
      (List.replicate 600 auditRecordSample).drop
        ((List.replicate 600 auditRecordSample).length - 500) ∧
    (500 ≤ (List.replicate 600 auditRecordSample).length →
      ((List.replicate 600 auditRecordSample).foldl (appendAuditRecord cfgSample)
        gEmpty).auditLog.length = 500) :=
  c9_audit_ring_buffer cfgSample rfl gEmpty rfl (List.replicate 600 auditRecordSample)

/-- C7 counterexample: an evaluate call on a connected instance whose
underlying fetch promise rejects (the ordinary transport-level connectivity
failure) surfaces that rejection to the caller as a raw error with no code
field at all — a raw transport exception escapes the public interface. -/
theorem c7_counterexample :
    (evaluate cfgSample ctxSample trFetchFailSample gCachedSample pPlainSample).1 =
      .error (.raw "connection refused") ∧
    SdkError.code (.raw "connection refused") = none := by
  exact ⟨by decide, rfl⟩

theorem httpRequest_wellTyped {α : Type} (url : String) (o : TransportOutcome α)
    (h : o.wellTyped = true) :
    (∃ resp, httpRequest url o = .ok resp) ∨
    (∃ c m, httpRequest url o = .error (.governor c m) ∧
      (c = "network_error" ∨ c = "timeout_error")) := by
  cases o with
  | fetchFailed msg => simp [TransportOutcome.wellTyped] at h
  | timedOut => exact Or.inr ⟨_, _, rfl, Or.inr rfl⟩
  | httpResponse status ok body parsed =>
    cases ok with
    | false =>
      exact Or.inr ⟨"network_error", "HTTP " ++ toString status ++ ": " ++ body,
        by simp [httpRequest], Or.inl rfl⟩
    | true =>
      cases parsed with
      | none => simp [TransportOutcome.wellTyped] at h
      | some d => exact Or.inl ⟨⟨status, d⟩, by simp [httpRequest]⟩

theorem requestWithRetryLoop_wellTyped {α : Type} (retry : RetryOptions)
    (transport : Nat → TransportOutcome α) (url : String)
    (hwt : ∀ k, (transport k).wellTyped = true) :
    ∀ (remaining attempt : Nat) (off : Bool), 1 ≤ remaining →
      (∃ resp, (requestWithRetryLoop retry transport url attempt remaining off).result =
        .ok resp) ∨
      (∃ c m, (requestWithRetryLoop retry transport url attempt remaining off).result =
        .error (.governor c m) ∧ (c = "network_error" ∨ c = "timeout_error")) := by
  intro remaining
  induction remaining with
  | zero => intro attempt off h; omega
  | succ r ih =>
    intro attempt off _
    rcases httpRequest_wellTyped url (transport attempt) (hwt attempt) with
      ⟨resp, hr⟩ | ⟨c, m, hr, hc⟩
    · exact Or.inl ⟨resp, by simp [requestWithRetryLoop, hr]⟩
    · by_cases hr0 : r = 0
      · subst hr0
        refine Or.inr ⟨c, m, ?_, hc⟩
        simp [requestWithRetryLoop, hr]
      · have h1 : 1 ≤ r := Nat.one_le_iff_ne_zero.mpr hr0
        have hrec := ih (attempt + 1)
          (if (SdkError.governor c m).isNetworkError = true then true else off) h1
        simp only [requestWithRetryLoop, hr, if_neg hr0]
        exact hrec

theorem requestWithRetry_wellTyped {α : Type} (retry : RetryOptions)
    (transport : Nat → TransportOutcome α) (url : String) (off : Bool)
    (hwt : ∀ k, (transport k).wellTyped = true) :
    (∃ resp, (requestWithRetry retry transport url off).result = .ok resp) ∨
    (∃ c m, (requestWithRetry retry transport url off).result = .error (.governor c m) ∧
      (c = "network_error" ∨ c = "timeout_error")) :=
  requestWithRetryLoop_wellTyped retry transport url hwt (retry.retries + 1) 0 off (by omega)

theorem loadRulepack_wellTyped (cfg : GovernorConfig) (ctx : Ctx)
    (rpTransport : Nat → TransportOutcome Rulepack) (g : GovState)
    (policyId : String) (forceRefresh : Bool)
    (hwt : ∀ k, (rpTransport k).wellTyped = true) :
    (∃ x, (loadRulepack cfg ctx rpTransport g policyId forceRefresh).1 = .ok x) ∨
    (∃ c m, (loadRulepack cfg ctx rpTransport g policyId forceRefresh).1 =
      .error (.governor c m) ∧
      (c = "network_error" ∨ c = "timeout_error" ∨ c = "policy_error")) := by
  unfold loadRulepack
  by_cases hpid : policyId = ""
  · simp only [if_pos hpid]
    exact Or.inr ⟨_, _, rfl, Or.inr (Or.inr rfl)⟩
  · simp only [if_neg hpid]
    rcases hcs : (if forceRefresh = false then getCachedRulepack cfg ctx.nowMs g policyId
        else (none, g)) with ⟨copt, g1⟩
    cases copt with
    | some cached => exact Or.inl ⟨some cached, rfl⟩
    | none =>
      by_cases hoff1 : g1.isOffline = true
      · simp only [hoff1, if_true]
        exact Or.inl ⟨none, rfl⟩
      · simp only [Bool.not_eq_true] at hoff1
        simp only [hoff1, Bool.false_eq_true, if_false]
        rcases requestWithRetry_wellTyped cfg.retry rpTransport
            (cfg.endpoint ++ "/policies/" ++ policyId ++ "/rulepack") false hwt with
          ⟨resp, hr⟩ | ⟨c, m, hr, hc⟩
        · rw [hr]
          exact Or.inl ⟨some resp.data, rfl⟩
        · rw [hr]
          exact Or.inr ⟨c, m, rfl, hc.imp id Or.inl⟩

theorem ensureRulepackCached_wellTyped (cfg : GovernorConfig) (ctx : Ctx)
    (rpTransport : Nat → TransportOutcome Rulepack) (g : GovState) (policyId : String)
    (hwt : ∀ k, (rpTransport k).wellTyped = true) :
    ((ensureRulepackCached cfg ctx rpTransport g policyId).1 = .ok ()) ∨
    (∃ c m, (ensureRulepackCached cfg ctx rpTransport g policyId).1 =
      .error (.governor c m) ∧
      (c = "network_error" ∨ c = "timeout_error" ∨ c = "policy_error")) := by
  unfold ensureRulepackCached
  rcases hgc : getCachedRulepack cfg ctx.nowMs g policyId with ⟨copt, g1⟩
  cases copt with
  | some cached => exact Or.inl rfl
  | none =>
    dsimp only
    rcases hlr : loadRulepack cfg ctx rpTransport g1 policyId true with ⟨res, g2⟩
    have hwl := loadRulepack_wellTyped cfg ctx rpTransport g1 policyId true hwt
    rw [hlr] at hwl
    cases res with
    | error e =>
      rcases hwl with ⟨x, hx⟩ | ⟨c, m, hcm, hcs⟩
      · simp at hx
      · simp only [Except.error.injEq] at hcm
        exact Or.inr ⟨c, m, by rw [hcm], hcs⟩
    | ok x => exact Or.inl rfl

/-- C7 amended: calls whose transport behaves (the fetch promise resolves and
ok bodies parse) surface either a structured result or a GovernorError whose
code is network_error, timeout_error or policy_error; but a transport-level
rejection or an ok response with an unparseable body escapes as a raw,
untyped error (see the counterexample), so the no-raw-exception guarantee
holds only under that transport assumption. -/
theorem c7_typed_errors (cfg : GovernorConfig) (ctx : Ctx) (tr : EvalTransports)
    (g : GovState) (payload : EvaluationPayload)
    (hrp : ∀ k, (tr.rulepackFetch k).wellTyped = true)
    (hev : ∀ k, (tr.evalPost k).wellTyped = true) :
    (∃ r, (evaluate cfg ctx tr g payload).1 = .ok r) ∨
    (∃ c m, (evaluate cfg ctx tr g payload).1 = .error (.governor c m) ∧
      (c = "network_error" ∨ c = "timeout_error" ∨ c = "policy_error")) := by
  unfold evaluate
  by_cases hpid : payload.policyId = ""
  · simp only [if_pos hpid]
    exact Or.inr ⟨_, _, rfl, Or.inr (Or.inr rfl)⟩
  · rw [if_neg hpid]
    by_cases hcond : (g.isOffline || offlineRequested payload) = true
    · rw [if_pos hcond]
      exact Or.inl ⟨_, rfl⟩
    · rw [if_neg hcond]
      rcases hens : ensureRulepackCached cfg ctx tr.rulepackFetch g payload.policyId
        with ⟨res1, g2⟩
      have hwe := ensureRulepackCached_wellTyped cfg ctx tr.rulepackFetch g
        payload.policyId hrp
      rw [hens] at hwe
      cases res1 with
      | error e =>
        dsimp only
        rcases hwe with hx | ⟨c, m, hcm, hcs⟩
        · simp at hx
        · simp only [Except.error.injEq] at hcm
          exact Or.inr ⟨c, m, by rw [hcm], hcs⟩
      | ok u =>
        dsimp only
        rcases requestWithRetry_wellTyped cfg.retry tr.evalPost
            (cfg.endpoint ++ "/policies/" ++ payload.policyId ++ "/evaluate")
            g2.isOffline hev with ⟨resp, hr⟩ | ⟨c, m, hr, hc⟩
        · rw [hr]
          exact Or.inl ⟨_, rfl⟩
        · rw [hr]
          exact Or.inr ⟨c, m, rfl, hc.imp id Or.inl⟩

theorem c7_typed_errors_witness :
    (∃ r, (evaluate cfgSample ctxSample trOkSample gCachedSample pPlainSample).1 = .ok r) ∨
    (∃ c m, (evaluate cfgSample ctxSample trOkSample gCachedSample pPlainSample).1 =
      .error (.governor c m) ∧
      (c = "network_error" ∨ c = "timeout_error" ∨ c = "policy_error")) :=
  c7_typed_errors cfgSample ctxSample trOkSample gCachedSample pPlainSample
    (fun _ => rfl) (fun _ => rfl)
